import Mathlib

/-!
# Daytrace — verification of the spoken Q&A core

Shallow embedding of the Daytrace repository's core logic:

* `src/src/types/index.ts`          — the data model (`Question`, `QuestionInteractionState`);
* `src/src/lib/simple-speech.ts`    — the Speech Capture Engine (`SimpleSpeechRecognition`),
  modelled as an interpreter over a script of recognition-engine events;
* `src/src/components/DaytraceClientPage.tsx` (current revision, the one importing
  `SimpleSpeechRecognition` and `SessionStorage`) — the Voice Command Interpreter
  (`processVoiceCommands`), the Navigation Controller (`navigate`), the capture
  completion flow (`actuallyStartTranscription`), the import of exported sessions
  (`handleImportJson`), and the turn-taking orchestrator, modelled as a step relation;
* `src/capacitor.config.ts` (the storage utility document) — the Session Store
  (`SessionStorage.saveToHistory`, `exportSessionAsJSON`).

JavaScript `Record<string, T>` objects are modelled as association lists with
JS assignment semantics (`recAssign`: an existing key is updated in place, a new
key is appended) and first-match lookup (`recLookup`); `s || ''` on strings is
`jsOr` (the empty string is falsy).
-/

namespace Daytrace

/-! ## Data model (src/src/types/index.ts) -/

/-- `QuestionStatus` from src/src/types/index.ts: "pending" | "answered" | "skipped". -/
inductive QuestionStatus where
  | pending
  | answered
  | skipped
deriving DecidableEq, Repr

/-- `QuestionInteractionState` from src/src/types/index.ts. -/
structure QuestionInteractionState where
  answer : String
  status : QuestionStatus
deriving DecidableEq, Repr

/-- `Question` from src/src/types/index.ts (current revision: `id`, `text`,
optional `context : Record<string, any>`; context values are modelled as strings,
an absent context as `[]`). -/
structure Question where
  id : String
  text : String
  context : List (String × String)
deriving DecidableEq, Repr

/-- `AllQuestionStates = Record<string, QuestionInteractionState>` modelled as an
association list built by JS-style assignment. -/
abbrev AllQuestionStates := List (String × QuestionInteractionState)

/-- JS object property read `m[k]`: first matching key (maps built with
`recAssign` have unique keys, so the first match is the only one). -/
def recLookup {α : Type} (m : List (String × α)) (k : String) : Option α :=
  match m with
  | [] => none
  | (k', v) :: rest => if k' = k then some v else recLookup rest k

/-- JS object property assignment `{...m, [k]: v}` / `m[k] = v`: an existing key
keeps its position and gets the new value, a fresh key is appended. -/
def recAssign {α : Type} (m : List (String × α)) (k : String) (v : α) :
    List (String × α) :=
  if m.any (fun p => p.1 == k) then
    m.map (fun p => if p.1 == k then (k, v) else p)
  else
    m ++ [(k, v)]

/-- JS `s || d` for strings: the empty string is falsy. -/
def jsOr (s d : String) : String := if s = "" then d else s

/-- JS `String.prototype.trim()`: strip whitespace from both ends (structural,
so that the kernel can evaluate it on concrete inputs). -/
def jsTrim (s : String) : String :=
  String.mk (((s.toList.dropWhile Char.isWhitespace).reverse.dropWhile
    Char.isWhitespace).reverse)

/-- The string stored for a `QuestionStatus` (JSON serialization / export). -/
def statusString : QuestionStatus → String
  | .pending => "pending"
  | .answered => "answered"
  | .skipped => "skipped"

/-- Reading a status string back (`(q.status as any) || 'pending'` in
`handleImportJson`): the empty string falls back to `pending`; the TS cast lets
any other string through unchecked, which the typed model folds to `pending` —
round-trips from this repository's own export only ever see the three valid
strings or the fallback. -/
def parseStatus (s : String) : QuestionStatus :=
  if s = "answered" then .answered
  else if s = "skipped" then .skipped
  else .pending

/-! ## Speech Capture Engine (src/src/lib/simple-speech.ts)

`startListening()` installs `onresult` / `onerror` / `onend` handlers over a
closure (`finalTranscript`, `hasSpoken`, `stoppedBySilenceTimer`) and the object
fields (`isListening`, `manualStop`, `autoRestart`, `accumulatedTranscript`).
The model is an interpreter over a script of engine events, consumed in order;
each event's effect mirrors the corresponding handler.  Timer events carry their
arming conditions as guards (the silence timer is only armed once `hasSpoken`,
the initial timeout only fires before any speech); `recognition.stop()` makes
the engine emit a later `ended` event, which the script must contain explicitly.
The promise settles at the first `resolve`/`reject`, as in JS. -/

/-- Events delivered to a `SimpleSpeechRecognition` session. -/
inductive SpeechEvent where
  /-- `onresult` with one new result entry (`transcript`, `isFinal`). -/
  | result (transcript : String) (isFinal : Bool)
  /-- `onerror` with `event.error === 'no-speech'`. -/
  | errNoSpeech
  /-- `onerror` with `event.error === 'aborted'`. -/
  | errAborted
  /-- `onerror` with any other error string. -/
  | errOther (msg : String)
  /-- `onend`. -/
  | ended
  /-- the 3s silence timer fires (armed only once speech was observed). -/
  | silenceTimerFires
  /-- the 2-minute initial thinking-time timeout fires. -/
  | initialTimeoutFires
  /-- the caller invokes `stopListening()`. -/
  | callerStops
deriving DecidableEq, Repr

/-- Object fields of `SimpleSpeechRecognition`. -/
structure EngineObj where
  isListening : Bool
  manualStop : Bool
  autoRestart : Bool
  accumulatedTranscript : String
deriving DecidableEq, Repr

/-- Closure locals of one `startListening()` promise executor. -/
structure SessionLocals where
  finalTranscript : String
  hasSpoken : Bool
  stoppedBySilenceTimer : Bool
deriving DecidableEq, Repr

/-- How the `startListening()` promise settles. -/
inductive SettleOutcome where
  | resolved (transcript : String)
  | rejected (msg : String)
  | pending
deriving DecidableEq, Repr

/-- Result of running a session script: the settlement, the number of automatic
internal restarts performed, and the engine object state afterwards. -/
structure RunResult where
  outcome : SettleOutcome
  restarts : Nat
  engine : EngineObj
deriving DecidableEq, Repr

/-- Entry of `startListening()` (lines 53–59): `isListening := true`,
`manualStop := false`, and `accumulatedTranscript := ''`
("Always start fresh for simplicity"), with fresh closure locals. -/
def startSession (o : EngineObj) : EngineObj × SessionLocals :=
  ({ o with isListening := true, manualStop := false, accumulatedTranscript := "" },
   { finalTranscript := "", hasSpoken := false, stoppedBySilenceTimer := false })

/-- Run the handlers of one (possibly auto-restarting) `startListening()` call
over an event script. -/
def runSession : List SpeechEvent → EngineObj → SessionLocals → RunResult
  | [], o, _ => { outcome := .pending, restarts := 0, engine := o }
  | e :: rest, o, loc =>
    match e with
    | .result t isFinal =>
      -- onresult: a final entry appends `transcript + ' '` and sets hasSpoken;
      -- the trailing check sets hasSpoken when interim or final text is non-blank.
      let loc1 := if isFinal then
          { loc with finalTranscript := loc.finalTranscript ++ t ++ " ", hasSpoken := true }
        else loc
      let interim := if isFinal then "" else t
      let loc2 := if jsTrim interim ≠ "" ∨ jsTrim loc1.finalTranscript ≠ "" then
          { loc1 with hasSpoken := true }
        else loc1
      runSession rest o loc2
    | .errNoSpeech =>
      -- onerror, recoverable: isListening := false, no settle ("let onend handle it").
      runSession rest { o with isListening := false } loc
    | .errAborted =>
      runSession rest { o with isListening := false } loc
    | .errOther m =>
      -- onerror, serious: autoRestart := false and reject.
      { outcome := .rejected m, restarts := 0,
        engine := { o with isListening := false, autoRestart := false } }
    | .silenceTimerFires =>
      -- armed by resetSilenceTimer only once hasSpoken; callback guard isListening.
      if o.isListening ∧ loc.hasSpoken then
        runSession rest o { loc with stoppedBySilenceTimer := true }
      else runSession rest o loc
    | .initialTimeoutFires =>
      -- fires only while listening with no speech yet.
      if o.isListening ∧ ¬loc.hasSpoken then
        runSession rest o { loc with stoppedBySilenceTimer := true }
      else runSession rest o loc
    | .callerStops =>
      -- stopListening(): manualStop := true, autoRestart := false, buffer cleared.
      if o.isListening then
        runSession rest
          { o with manualStop := true, autoRestart := false,
                   accumulatedTranscript := "", isListening := false } loc
      else runSession rest o loc
    | .ended =>
      let wasListening := o.isListening
      let o1 := { o with isListening := false }
      let shouldAutoRestart :=
        ¬o1.manualStop ∧ wasListening ∧ ¬loc.stoppedBySilenceTimer ∧ loc.hasSpoken
      if shouldAutoRestart then
        -- setTimeout(100): if still not manually stopped, restart fresh
        -- (chaining this promise's resolve to the inner call).
        let o2 := { o1 with autoRestart := true }
        if ¬o2.manualStop then
          let os := startSession o2
          let r := runSession rest os.1 os.2
          { r with restarts := r.restarts + 1 }
        else
          { outcome := .resolved (jsTrim loc.finalTranscript), restarts := 0, engine := o2 }
      else
        { outcome := .resolved (jsTrim loc.finalTranscript), restarts := 0,
          engine := { o1 with autoRestart := false } }

/-- A fresh `SimpleSpeechRecognition` object followed by `startListening()`
run over an event script. -/
def runStartListening (events : List SpeechEvent) : RunResult :=
  let os := startSession
    { isListening := false, manualStop := false, autoRestart := false,
      accumulatedTranscript := "" }
  runSession events os.1 os.2

/-! ## Voice Command Interpreter
(`processVoiceCommands`, DaytraceClientPage.tsx lines 849–963, current revision)

The function lowercases and trims the transcript, checks the anchored jump
regex `^(?:jump to question (\d+)|jump to (\d+))$`, then the exact-match
standalone table, and finally scans the original text for the legacy
wake-phrase-prefixed regexes
`/\b(daytrace|day trace|they trace|hey trace|retrace)\s+<command words>\b/gi`,
replacing every occurrence of the first matching pattern by the empty string.
The regex machinery below is specialised to exactly these patterns:
a word boundary, one of the literal wake spellings (case-insensitive),
then each command word preceded by `\s+`, then a word boundary. -/

/-- The recognizable voice commands (the string values of the source's
command table plus `jump`). -/
inductive VCommand where
  | next
  | prev
  | skip
  | jump
  | summary
  | rpeat
  | pause
  | resume
  | clear
deriving DecidableEq, Repr

/-- ASCII lowercasing, as applied by `toLowerCase()` to these ASCII transcripts. -/
def lowerStr (s : String) : String := String.mk (s.toList.map Char.toLower)

/-- JS `\w`: ASCII letters, digits, underscore. -/
def isWordChar (c : Char) : Bool := c.isAlpha || c.isDigit || c = '_'

/-- `parseInt(digits, 10)` for a string of decimal digits. -/
def digitsToNat (cs : List Char) : Nat :=
  cs.foldl (fun a c => a * 10 + (c.toNat - 48)) 0

/-- Literal prefix match on character lists, returning the rest. -/
def dropLit : List Char → List Char → Option (List Char)
  | [], s => some s
  | _ :: _, [] => none
  | p :: ps, c :: cs => if c = p then dropLit ps cs else none

/-- The anchored jump regex on the trimmed lowercased transcript:
`^(?:jump to question (\d+)|jump to (\d+))$` (first alternative first). -/
def jumpParse (t : String) : Option Nat :=
  match dropLit "jump to question ".toList t.toList with
  | some rest =>
    if rest ≠ [] ∧ rest.all Char.isDigit then some (digitsToNat rest) else none
  | none =>
    match dropLit "jump to ".toList t.toList with
    | some rest =>
      if rest ≠ [] ∧ rest.all Char.isDigit then some (digitsToNat rest) else none
    | none => none

/-- The `standaloneCommands` exact-match table (lines 864–877). -/
def standaloneLookup (t : String) : Option VCommand :=
  if t = "next" then some .next
  else if t = "next question" then some .next
  else if t = "previous" then some .prev
  else if t = "previous question" then some .prev
  else if t = "skip" then some .skip
  else if t = "skip question" then some .skip
  else if t = "summary" then some .summary
  else if t = "repeat" then some .rpeat
  else if t = "repeat question" then some .rpeat
  else if t = "pause" then some .pause
  else if t = "resume" then some .resume
  else if t = "clear answer" then some .clear
  else none

/-- The accepted wake-phrase spellings: `daytrace|day trace|they trace|hey trace|retrace`
(tried in this order at each position, as regex alternation does). -/
def wakeSpellings : List (List Char) :=
  ["daytrace".toList, "day trace".toList, "they trace".toList,
   "hey trace".toList, "retrace".toList]

/-- Match a literal (already lowercase) pattern against the head of the input,
lowercasing input characters (the `/i` flag); returns the rest of the input. -/
def matchLit : List Char → List Char → Option (List Char)
  | [], s => some s
  | _ :: _, [] => none
  | p :: ps, c :: cs => if c.toLower = p then matchLit ps cs else none

/-- Match `\s+`: at least one whitespace character, greedily. -/
def matchWsPlus : List Char → Option (List Char)
  | [] => none
  | c :: cs => if c.isWhitespace then some (cs.dropWhile Char.isWhitespace) else none

/-- Match the command words of a pattern, each preceded by `\s+`. -/
def matchWords : List (List Char) → List Char → Option (List Char)
  | [], s => some s
  | w :: ws, s =>
    match matchWsPlus s with
    | none => none
    | some s1 =>
      match matchLit w s1 with
      | none => none
      | some s2 => matchWords ws s2

/-- The trailing `\b`: the match may only end at the end of input or before a
non-word character. -/
def endBoundary : List Char → Bool
  | [] => true
  | c :: _ => !isWordChar c

/-- Try to match `(wake-alternation)\s+<words>\b` starting exactly at the head
of `s` (the leading `\b` is checked by the caller); wake spellings are tried in
alternation order.  Returns the input remaining after the match. -/
def tryWakes : List (List Char) → List (List Char) → List Char → Option (List Char)
  | [], _, _ => none
  | wk :: wks, words, s =>
    match matchLit wk s with
    | some s1 =>
      match matchWords words s1 with
      | some s2 => if endBoundary s2 then some s2 else tryWakes wks words s
      | none => tryWakes wks words s
    | none => tryWakes wks words s

/-- `pattern.exec(text) !== null`: scan every position with a leading word
boundary for a match of the pattern with command words `words`.
`prevWord` records whether the previous character was a word character. -/
def hasPatMatch (words : List (List Char)) : Bool → List Char → Bool
  | _, [] => false
  | prevWord, c :: cs =>
    if !prevWord ∧ (tryWakes wakeSpellings words (c :: cs)).isSome then true
    else hasPatMatch words (isWordChar c) cs

/-- `text.replace(pattern, '')` for a `/g` pattern: remove every
(non-overlapping, left-to-right) match.  After a removed match the scan
continues with `prevWord := true` (the last matched character is a word
character, as every pattern ends in a letter). -/
def removeMatches (words : List (List Char)) : Nat → Bool → List Char → List Char
  | 0, _, s => s
  | _ + 1, _, [] => []
  | fuel + 1, prevWord, c :: cs =>
    if !prevWord then
      match tryWakes wakeSpellings words (c :: cs) with
      | some rest => removeMatches words fuel true rest
      | none => c :: removeMatches words fuel (isWordChar c) cs
    else c :: removeMatches words fuel (isWordChar c) cs

/-- One entry of the `prefixedPatterns` array: the bodies of its regexes (in
order), the mapped command, and whether its `execute` clears the answer. -/
structure PrefixedGroup where
  bodies : List (List String)
  command : VCommand
  clears : Bool

/-- `prefixedPatterns` (lines 900–944), in source order. -/
def prefixedGroups : List PrefixedGroup :=
  [ { bodies := [["previous", "question"], ["previous"]], command := .prev, clears := false },
    { bodies := [["clear", "answer"]], command := .clear, clears := true },
    { bodies := [["next", "question"], ["next"]], command := .next, clears := false },
    { bodies := [["skip", "question"], ["skip"]], command := .skip, clears := false },
    { bodies := [["summary"]], command := .summary, clears := false },
    { bodies := [["repeat"]], command := .rpeat, clears := false },
    { bodies := [["pause"]], command := .pause, clears := false },
    { bodies := [["resume"]], command := .resume, clears := false } ]

/-- Does a given pattern body match somewhere in `text`? -/
def patternMatches (body : List String) (text : String) : Bool :=
  hasPatMatch (body.map String.toList) false text.toList

/-- `text.replace(pattern, '').trim()` for a matching pattern body. -/
def strippedText (body : List String) (text : String) : String :=
  jsTrim (String.mk (removeMatches (body.map String.toList) text.length false text.toList))

/-- The inner `for (const pattern of patterns)` loop: first matching body. -/
def firstBodyMatch (text : String) : List (List String) → Option (List String)
  | [] => none
  | b :: bs => if patternMatches b text then some b else firstBodyMatch text bs

/-- The outer loop over `prefixedPatterns`: the first group one of whose
patterns matches, with the cleaned text produced by its replacement. -/
def firstPrefixedMatch (text : String) : List PrefixedGroup → Option (String × VCommand × Bool)
  | [] => none
  | g :: gs =>
    match firstBodyMatch text g.bodies with
    | some b => some (strippedText b text, g.command, g.clears)
    | none => firstPrefixedMatch text gs

/-- Result of `processVoiceCommands` (the returned object, plus the
`setQuestionStates` write performed by the `clear` command's `execute`). -/
structure VoiceResult where
  cleanedText : String
  commandExecuted : Bool
  command : Option VCommand
  targetQuestionNumber : Option Nat
  clearWrite : Option (String × QuestionInteractionState)
deriving DecidableEq, Repr

/-- `processVoiceCommands(text, currentQuestionId)`
(DaytraceClientPage.tsx lines 849–963, current revision). -/
def processVoiceCommands (text : String) (currentQuestionId : String) : VoiceResult :=
  let trimmedText := lowerStr (jsTrim text)
  match jumpParse trimmedText with
  | some n =>
    { cleanedText := "", commandExecuted := true, command := some .jump,
      targetQuestionNumber := some n, clearWrite := none }
  | none =>
    match standaloneLookup trimmedText with
    | some c =>
      { cleanedText := "", commandExecuted := true, command := some c,
        targetQuestionNumber := none,
        clearWrite := if c = .clear then
            some (currentQuestionId, { answer := "", status := .pending }) else none }
    | none =>
      match firstPrefixedMatch text prefixedGroups with
      | some r =>
        { cleanedText := r.1, commandExecuted := true, command := some r.2.1,
          targetQuestionNumber := none,
          clearWrite := if r.2.2 then
              some (currentQuestionId, { answer := "", status := .pending }) else none }
      | none =>
        { cleanedText := text, commandExecuted := false, command := none,
          targetQuestionNumber := none, clearWrite := none }

/-! ## Navigation Controller (`navigate`, DaytraceClientPage.tsx lines 790–847)

`navigate` tears down the engines (modelled in the orchestrator step relation
below), conditionally upgrades the current question's status, and computes the
new index.  The status write is a React functional update whose *value* is
computed from the snapshot the callback closed over (it spreads
`currentQStateInteraction`, not `prev[...]`): the model therefore returns the
decision (`write`, `newIndex`, `endToast`) and lets the caller apply the write
to whatever the live map is (`applyNav`). -/

/-- The `direction` parameter of `navigate`. -/
inductive NavDirection where
  | next
  | prev
  | skip
  | jump
deriving DecidableEq, Repr

/-- The observable decisions of one `navigate` call. -/
structure NavOutcome where
  write : Option (String × QuestionInteractionState)
  newIndex : Nat
  endToast : Bool
deriving DecidableEq, Repr

/-- `navigate(direction, targetIndex)`: `none` models the early return when no
questions are loaded or Q&A is inactive.  `targetIndex` is an `Int` because the
UI jump path can pass `questionNumber - 1 = -1`, clamped by `Math.max(0, ...)`. -/
def navigateDecision (questions : List Question) (states : AllQuestionStates)
    (currentIndex : Nat) (isQnAActive : Bool) (direction : NavDirection)
    (targetIndex : Option Int) : Option NavOutcome :=
  if questions.length = 0 ∨ isQnAActive = false then none
  else
    let write :=
      match questions[currentIndex]? with
      | none => none
      | some q =>
        match recLookup states q.id with
        | none => none
        | some st =>
          if st.status = .pending then
            if jsTrim st.answer ≠ "" then some (q.id, { st with status := .answered })
            else if direction = .skip then some (q.id, { st with status := .skipped })
            else none
          else none
    let newIndex : Nat :=
      match direction with
      | .next => min (questions.length - 1) (currentIndex + 1)
      | .skip => min (questions.length - 1) (currentIndex + 1)
      | .prev => currentIndex - 1
      | .jump =>
        match targetIndex with
        | some t => (max 0 (min ((questions.length : Int) - 1) t)).toNat
        | none => currentIndex
    some { write := write, newIndex := newIndex,
           endToast := decide (newIndex = currentIndex ∧
             (direction = .next ∨ direction = .skip) ∧
             currentIndex = questions.length - 1) }

/-- Apply a `navigate` status write to the live states map. -/
def applyNav (states : AllQuestionStates) (out : NavOutcome) : AllQuestionStates :=
  match out.write with
  | some kv => recAssign states kv.1 kv.2
  | none => states

/-- A `navigate` call committed against its own snapshot (the normal UI path:
the decision and the write apply to the same `questionStates`): the resulting
states map and question index. -/
def navigateApplied (questions : List Question) (states : AllQuestionStates)
    (currentIndex : Nat) (isQnAActive : Bool) (direction : NavDirection)
    (targetIndex : Option Int) : AllQuestionStates × Nat :=
  match navigateDecision questions states currentIndex isQnAActive direction targetIndex with
  | some out => (applyNav states out, out.newIndex)
  | none => (states, currentIndex)

/-- Result of the voice `jump` dispatch. -/
structure JumpResult where
  states : AllQuestionStates
  index : Nat
  invalidToast : Bool
deriving DecidableEq, Repr

/-- The voice jump validation and dispatch (DaytraceClientPage.tsx lines
1029–1035: `targetNumber && targetNumber >= 1 && targetNumber <= questions.length`,
then `handleJumpToQuestion(targetNumber)` = `navigate('jump', targetNumber - 1)`,
else the "Invalid Jump" toast with everything unchanged). -/
def voiceJumpStep (questions : List Question) (states : AllQuestionStates)
    (currentIndex : Nat) (isQnAActive : Bool) (targetNumber : Nat) : JumpResult :=
  if targetNumber ≠ 0 ∧ 1 ≤ targetNumber ∧ targetNumber ≤ questions.length then
    match navigateDecision questions states currentIndex isQnAActive .jump
        (some ((targetNumber : Int) - 1)) with
    | some out => { states := applyNav states out, index := out.newIndex, invalidToast := false }
    | none => { states := states, index := currentIndex, invalidToast := false }
  else
    { states := states, index := currentIndex, invalidToast := true }

/-! ## Capture completion
(`actuallyStartTranscription` after `await startListening()`, lines 986–1065) -/

/-- Handlers invoked by the command dispatch that do not change the question
index or states (modelled as opaque effects). -/
inductive CaptureEffect where
  | noEffect
  | summaryEffect
  | repeatEffect
  | pauseEffect
  | resumeEffect
deriving DecidableEq, Repr

/-- Observable result of processing one resolved transcript. -/
structure CaptureResult where
  states : AllQuestionStates
  index : Nat
  answerSaved : Bool
  invalidJumpToast : Bool
  endToast : Bool
  effect : CaptureEffect
  schedulesRestart : Bool
deriving DecidableEq, Repr

/-- The post-`await` logic of `actuallyStartTranscription`: voice command
interpretation, answer merge (replace a blank answer, append to a non-blank
one), the auto-`navigate('next')` when no command was recognized, and the
command dispatch.  `navigate`'s status decision reads the render-time snapshot
`states`; all writes land on the live map.  `schedulesRestart` records whether
control falls through to the 1s re-listen timer (commands in
`['next','prev','skip','jump','repeat','pause']` return early; `summary`,
`resume` and `clear` fall through, as does a transcript with no usable text). -/
def captureStep (questions : List Question) (states : AllQuestionStates)
    (currentIndex : Nat) (isQnAActive : Bool) (transcribedText : String) :
    CaptureResult :=
  match questions[currentIndex]? with
  | none =>
    { states := states, index := currentIndex, answerSaved := false,
      invalidJumpToast := false, endToast := false, effect := .noEffect,
      schedulesRestart := false }
  | some questionAtStart =>
    if jsTrim transcribedText = "" then
      { states := states, index := currentIndex, answerSaved := false,
        invalidJumpToast := false, endToast := false, effect := .noEffect,
        schedulesRestart := true }
    else
      let r := processVoiceCommands transcribedText questionAtStart.id
      let states0 := match r.clearWrite with
        | some kv => recAssign states kv.1 kv.2
        | none => states
      let currentAnswer := jsOr (match recLookup states questionAtStart.id with
        | some st => st.answer
        | none => "") ""
      let saveAnswer := jsTrim r.cleanedText ≠ ""
      let states1 := if saveAnswer then
          let newAnswer := if jsTrim currentAnswer = "" then jsTrim r.cleanedText
            else currentAnswer ++ " " ++ jsTrim r.cleanedText
          recAssign states0 questionAtStart.id { answer := newAnswer, status := .answered }
        else states0
      let dispatchNav := fun (dir : NavDirection) (target : Option Int)
          (invalid : Bool) =>
        match navigateDecision questions states currentIndex isQnAActive dir target with
        | some out =>
          { states := applyNav states1 out, index := out.newIndex,
            answerSaved := saveAnswer, invalidJumpToast := invalid,
            endToast := out.endToast, effect := CaptureEffect.noEffect,
            schedulesRestart := false : CaptureResult }
        | none =>
          { states := states1, index := currentIndex, answerSaved := saveAnswer,
            invalidJumpToast := invalid, endToast := false,
            effect := CaptureEffect.noEffect, schedulesRestart := false }
      let fallThrough := fun (eff : CaptureEffect) (restart : Bool) =>
        { states := states1, index := currentIndex, answerSaved := saveAnswer,
          invalidJumpToast := false, endToast := false, effect := eff,
          schedulesRestart := restart : CaptureResult }
      if saveAnswer ∧ r.commandExecuted = false then
        dispatchNav .next none false
      else if r.commandExecuted then
        match r.command with
        | some .next => dispatchNav .next none false
        | some .prev => dispatchNav .prev none false
        | some .skip => dispatchNav .skip none false
        | some .jump =>
          match r.targetQuestionNumber with
          | some n =>
            if n ≠ 0 ∧ 1 ≤ n ∧ n ≤ questions.length then
              dispatchNav .jump (some ((n : Int) - 1)) false
            else
              { states := states1, index := currentIndex, answerSaved := saveAnswer,
                invalidJumpToast := true, endToast := false, effect := .noEffect,
                schedulesRestart := false }
          | none =>
            { states := states1, index := currentIndex, answerSaved := saveAnswer,
              invalidJumpToast := true, endToast := false, effect := .noEffect,
              schedulesRestart := false }
        | some .summary => fallThrough .summaryEffect true
        | some .rpeat => fallThrough .repeatEffect false
        | some .pause => fallThrough .pauseEffect false
        | some .resume => fallThrough .resumeEffect true
        | some .clear => fallThrough .noEffect true
        | none => fallThrough .noEffect true
      else
        fallThrough .noEffect true

/-! ## Turn State Machine orchestrator (DaytraceClientPage.tsx, current revision)

The engine-relevant state of the component, with the capture side split into
its three real components: `transcribing` is the component's `isTranscribing`
flag; `engineListening` is `SimpleSpeechRecognition.isListening`, true exactly
while a recognition session is live; and `pendingRestart` records the 100 ms
self-restart timer that the engine's `onend` schedules on a bare engine end
after speech (simple-speech.ts 152–162), during which `isListening` is already
false (cleared at 137) but the session is about to come back.  `manualStop` is
the engine's `manualStop` field, the only thing the timer checks before
restarting (157).  The split matters because `stopListening()`
(simple-speech.ts 202–217) acts only when `this.isListening` is true: called
inside the restart window it is a complete no-op — `manualStop` stays false
and the timer restarts the engine regardless.  The remaining fields are as
before: `speaking` (an utterance is in flight on `speechSynthesis`), `reading`
(`readingQuestionRef.current`), `paused`/`pausedType`
(`isPaused`/`pausedContent.type`) and `qna` (`isQnAActive`).

Each step mirrors one synchronously-executed handler or engine callback (the
event loop runs handlers atomically).  Deferred `setTimeout` continuations are
modelled as separately schedulable events carrying the guards the code
re-checks at fire time; allowing them to fire whenever their guards hold only
adds interleavings, which is sound for an invariant over all reachable states,
and the counterexample traces below use only schedulings that the real
component produces.  `speechSynthesis` and the recognition capability are
assumed available (`isSpeechReady` true), and a question list is loaded.

The step relation takes two flags, each enabling one unsound scheduling of the
source.  With `unguardedSummary := true` the `handleShowSummary` intent
(lines 1574–1586: `speechSynthesis.cancel()` then `speak(summary)`, with no
check of `isTranscribing`) may fire in any state, as in the source; with
`unguardedSummary := false` it fires only while the capture engine is not
listening.  With `unguardedWindow := true` the teardown-performing and
summary handlers may fire inside a pending 100 ms restart window, as in the
source — where `stopListening()` no-ops and the engine then restarts under
whatever playback the handler starts; with `unguardedWindow := false` those
handlers fire only while no self-restart is pending.  The doubly-guarded
relation (`false`/`false`) is the repaired system the amended claim is
about. -/

/-- `pausedContent.type`. -/
inductive PausedType where
  | ptts
  | pstt
deriving DecidableEq, Repr

/-- Engine-relevant orchestrator state. -/
structure OrchState where
  speaking : Bool
  reading : Bool
  transcribing : Bool
  engineListening : Bool
  pendingRestart : Bool
  manualStop : Bool
  paused : Bool
  pausedType : Option PausedType
  qna : Bool
deriving DecidableEq, Repr

/-- Initial component state: nothing in flight, Q&A inactive. -/
def initOrch : OrchState :=
  { speaking := false, reading := false, transcribing := false,
    engineListening := false, pendingRestart := false, manualStop := false,
    paused := false, pausedType := none, qna := false }

/-- Effect of `stopListening()` (simple-speech.ts 202–217): only when the
engine's own `isListening` is true does it set `manualStop` and stop the
session; otherwise it is a no-op — in particular, called inside a pending
restart window it neither sets `manualStop` nor cancels the timer. -/
def stopL (s : OrchState) : OrchState :=
  if s.engineListening then { s with manualStop := true, engineListening := false }
  else s

/-- Effect of the teardown idiom shared by `navigate` (802–805),
`readQuestionAndPotentiallyListen` (1086–1090), `handleStartQnA` (1481–1484),
`handleReadAloud` (1338–1341), `stopTranscription` (779–787) and the STT
branch of `handlePause` (1376–1388): when `isTranscribing` is set, call
`stopListening()` and clear `isTranscribing`; otherwise do nothing. -/
def teardownSTT (s : OrchState) : OrchState :=
  if s.transcribing then { stopL s with transcribing := false } else s

/-- One orchestrator event.  Guards are the conditions the corresponding
handler checks before acting; effects are its writes to the engine state. -/
inductive OrchStep (unguardedSummary unguardedWindow : Bool) :
    OrchState → OrchState → Prop
  /-- `handleStartQnA` (1475–1518): cancel TTS, tear down STT, activate. -/
  | startQnA (s : OrchState) (h : s.qna = false)
      (hw : unguardedWindow = true ∨ s.pendingRestart = false) :
      OrchStep unguardedSummary unguardedWindow s
        { teardownSTT s with speaking := false, reading := false, qna := true }
  /-- `readQuestionAndPotentiallyListen` (1078–1125), fired by the start-Q&A /
  navigation / read-aloud / resume timers: refuses while already reading,
  tears down capture (a no-op on the engine when `isListening` is already
  false), then cancels and speaks. -/
  | readQuestion (s : OrchState) (h : s.reading = false)
      (hw : unguardedWindow = true ∨ s.pendingRestart = false) :
      OrchStep unguardedSummary unguardedWindow s
        { teardownSTT s with reading := true, speaking := true }
  /-- the question utterance's `onend` (1104–1117). -/
  | ttsEnd (s : OrchState) (h1 : s.speaking = true) (h2 : s.reading = true) :
      OrchStep unguardedSummary unguardedWindow s
        { s with speaking := false, reading := false }
  /-- the question utterance's `onerror` (1119–1122). -/
  | ttsError (s : OrchState) (h1 : s.speaking = true) (h2 : s.reading = true) :
      OrchStep unguardedSummary unguardedWindow s
        { s with speaking := false, reading := false }
  /-- a summary utterance finishing (it has no handlers installed). -/
  | summarySpeechEnd (s : OrchState) (h1 : s.speaking = true) (h2 : s.reading = false) :
      OrchStep unguardedSummary unguardedWindow s { s with speaking := false }
  /-- `actuallyStartTranscription` up to the engine start (965–986), fired by
  the post-TTS / post-capture / resume timers: refuses while `isTranscribing`
  is set or TTS is speaking or a question is being read; `startListening`
  enters with `isListening := true, manualStop := false` (54–55). -/
  | sttStart (s : OrchState) (h1 : s.transcribing = false) (h2 : s.speaking = false)
      (h3 : s.reading = false) :
      OrchStep unguardedSummary unguardedWindow s
        { s with transcribing := true, engineListening := true, manualStop := false }
  /-- a bare engine `onend` after speech with no manual stop and no silence
  stop (simple-speech.ts 126–162): `isListening` is cleared (137) and the
  100 ms self-restart timer is scheduled (152–162); the promise stays
  pending, so `isTranscribing` is untouched. -/
  | spontaneousEnd (s : OrchState) (h : s.engineListening = true) :
      OrchStep unguardedSummary unguardedWindow s
        { s with engineListening := false, pendingRestart := true }
  /-- the self-restart timer fires with `manualStop` still false (156–158):
  `startListening()` runs again, re-entering with `isListening := true,
  manualStop := false` — with no check of `speechSynthesis`. -/
  | restartFires (s : OrchState) (h1 : s.pendingRestart = true)
      (h2 : s.manualStop = false) :
      OrchStep unguardedSummary unguardedWindow s
        { s with pendingRestart := false, engineListening := true,
                 manualStop := false }
  /-- the self-restart timer fires after an intervening `stopListening()` set
  `manualStop` (159–161): the promise resolves instead and the awaiting
  `actuallyStartTranscription` finishes, clearing `isTranscribing`; its
  dispatch is covered by the separately schedulable handler events. -/
  | restartCancelled (s : OrchState) (h1 : s.pendingRestart = true)
      (h2 : s.manualStop = true) :
      OrchStep unguardedSummary unguardedWindow s
        { s with pendingRestart := false, transcribing := false }
  /-- capture ends (silence stop, error, or engine end without restart) and
  resolves with no usable text, a fatal capture error, or an invalid / clear
  command: the session ends and `isTranscribing` is cleared. -/
  | sttDonePlain (s : OrchState) (h : s.engineListening = true) :
      OrchStep unguardedSummary unguardedWindow s
        { s with engineListening := false, transcribing := false }
  /-- capture ends, resolves and dispatches into `navigate` (auto-advance or a
  navigation command): `navigate` cancels TTS and tears down STT (798–806). -/
  | sttDoneNavigate (s : OrchState) (h : s.engineListening = true) :
      OrchStep unguardedSummary unguardedWindow s
        { s with engineListening := false, transcribing := false,
                 speaking := false, reading := false }
  /-- capture ends and resolves with the `summary` voice command:
  `handleShowSummary` speaks the summary (the session has already ended). -/
  | sttDoneSummary (s : OrchState) (h : s.engineListening = true) :
      OrchStep unguardedSummary unguardedWindow s
        { s with engineListening := false, transcribing := false, speaking := true }
  /-- capture ends and resolves with the `repeat` voice command:
  `handleReadAloud` tears both engines down and defers `readQuestion`. -/
  | sttDoneRepeat (s : OrchState) (h : s.engineListening = true) :
      OrchStep unguardedSummary unguardedWindow s
        { s with engineListening := false, transcribing := false,
                 speaking := false, reading := false }
  /-- capture ends and resolves with the `pause` voice command. -/
  | sttDonePause (s : OrchState) (h : s.engineListening = true) (h2 : s.paused = false) :
      OrchStep unguardedSummary unguardedWindow s
        { s with engineListening := false, transcribing := false,
                 paused := true, pausedType := some .pstt }
  /-- capture ends and resolves with the `resume` voice command. -/
  | sttDoneResume (s : OrchState) (h : s.engineListening = true) :
      OrchStep unguardedSummary unguardedWindow s
        { s with engineListening := false, transcribing := false,
                 paused := false, pausedType := none }
  /-- `navigate` from the UI buttons (790–847): cancel TTS, tear down STT —
  inside a restart window the teardown's `stopListening()` no-ops. -/
  | navigateUI (s : OrchState) (h : s.qna = true)
      (hw : unguardedWindow = true ∨ s.pendingRestart = false) :
      OrchStep unguardedSummary unguardedWindow s
        { teardownSTT s with speaking := false, reading := false }
  /-- `handleShowSummary` from the palette button (1574–1586): cancels any
  utterance and speaks the summary — without stopping an in-flight capture
  and without checking for a pending self-restart. -/
  | summaryUI (s : OrchState)
      (hs : unguardedSummary = true ∨ s.engineListening = false)
      (hw : unguardedWindow = true ∨ s.pendingRestart = false) :
      OrchStep unguardedSummary unguardedWindow s { s with speaking := true }
  /-- `handleReadAloud` (1326–1351): tears both engines down, defers reading. -/
  | readAloudUI (s : OrchState) (h : s.qna = true)
      (hw : unguardedWindow = true ∨ s.pendingRestart = false) :
      OrchStep unguardedSummary unguardedWindow s
        { teardownSTT s with speaking := false, reading := false }
  /-- `handleToggleTranscription`, stop branch (1451–1454), via
  `stopTranscription` (779–787). -/
  | toggleStop (s : OrchState) (h : s.transcribing = true)
      (hw : unguardedWindow = true ∨ s.pendingRestart = false) :
      OrchStep unguardedSummary unguardedWindow s (teardownSTT s)
  /-- `handleToggleTranscription`, start branch (1455–1467): cancels TTS,
  clears the reading flag, then starts capture. -/
  | toggleStart (s : OrchState) (h1 : s.transcribing = false) (h2 : s.qna = true) :
      OrchStep unguardedSummary unguardedWindow s
        { s with speaking := false, reading := false, transcribing := true,
                 engineListening := true, manualStop := false }
  /-- `handlePause` from TTS (1363–1375). -/
  | pauseTTS (s : OrchState) (hp : s.paused = false) (h : s.speaking = true) :
      OrchStep unguardedSummary unguardedWindow s
        { s with speaking := false, reading := false, paused := true,
                 pausedType := some .ptts }
  /-- `handlePause` from STT (1376–1390): tears down capture. -/
  | pauseSTT (s : OrchState) (hp : s.paused = false) (h : s.transcribing = true)
      (hw : unguardedWindow = true ∨ s.pendingRestart = false) :
      OrchStep unguardedSummary unguardedWindow s
        { teardownSTT s with paused := true, pausedType := some .pstt }
  /-- `handleResume` (1397–1435): clears the pause and defers the resumed
  operation (a later `readQuestion` / `sttStart` event). -/
  | resumeEv (s : OrchState) (h : s.paused = true) :
      OrchStep unguardedSummary unguardedWindow s
        { s with paused := false, pausedType := none }
  /-- `handleImportJson` (1149–1270): replaces the session data and
  deactivates Q&A without touching the engines. -/
  | importEv (s : OrchState) :
      OrchStep unguardedSummary unguardedWindow s { s with qna := false }

/-- States reachable from the initial component state. -/
inductive OrchReach (unguardedSummary unguardedWindow : Bool) : OrchState → Prop
  | init : OrchReach unguardedSummary unguardedWindow initOrch
  | step {s t : OrchState} : OrchReach unguardedSummary unguardedWindow s →
      OrchStep unguardedSummary unguardedWindow s t →
      OrchReach unguardedSummary unguardedWindow t

/-! ## Session Store (`SessionStorage`, the storage utility in capacitor.config.ts) -/

/-- `SavedSession` from the storage utility. -/
structure SavedSession where
  id : String
  timestamp : Nat
  questions : List Question
  questionStates : AllQuestionStates
  currentQuestionIndex : Nat
  isQnAActive : Bool
  title : Option String
deriving DecidableEq, Repr

/-- `SessionStorage.saveToHistory` (lines 96–113): drop any entry with the
same id, `unshift` the session to the front, and `splice(10)` — keep only the
first 10 entries. -/
def saveToHistory (session : SavedSession) (existingSessions : List SavedSession) :
    List SavedSession :=
  let updatedSessions := session :: existingSessions.filter (fun s => s.id != session.id)
  if updatedSessions.length > 10 then updatedSessions.take 10 else updatedSessions

/-- A sequence of `saveToHistory` calls starting from empty storage. -/
def saveAll (sessions : List SavedSession) : List SavedSession :=
  sessions.foldl (fun history s => saveToHistory s history) []

/-! ## Export (`SessionStorage.exportSessionAsJSON`, lines 185–210) and
re-import of an exported session (`handleImportJson`, exported-session branch,
DaytraceClientPage.tsx lines 1163–1255). -/

/-- One entry of the exported `questions` array:
`{ id, question, answer, status, ...(q.context || {}) }`.  The four named
fields are listed first, so a context property with one of those keys
overwrites it (JS spread); the remaining context properties are echoed in
`extra`. -/
structure ExportedQuestion where
  id : String
  question : String
  answer : String
  status : String
  extra : List (String × String)
deriving DecidableEq, Repr

/-- Spreading one context property over the exported question object. -/
def applyCtxOverride (e : ExportedQuestion) (kv : String × String) : ExportedQuestion :=
  if kv.1 = "id" then { e with id := kv.2 }
  else if kv.1 = "question" then { e with question := kv.2 }
  else if kv.1 = "answer" then { e with answer := kv.2 }
  else if kv.1 = "status" then { e with status := kv.2 }
  else e

/-- One element of `session.questions.map(...)` in `exportSessionAsJSON`. -/
def exportQuestion (states : AllQuestionStates) (q : Question) : ExportedQuestion :=
  let base : ExportedQuestion :=
    { id := q.id, question := q.text,
      answer := match recLookup states q.id with
        | some st => jsOr st.answer ""
        | none => "",
      status := match recLookup states q.id with
        | some st => jsOr (statusString st.status) "pending"
        | none => "pending",
      extra := q.context }
  q.context.foldl applyCtxOverride base

/-- The `summary` block of the export. -/
structure ExportSummary where
  totalQuestions : Nat
  answered : Nat
  skipped : Nat
  pending : Nat
deriving DecidableEq, Repr

/-- The exported object (`exportedAt` and the display-only `sessionInfo.date`
string are omitted; `handleImportJson` reads none of them beyond display). -/
structure ExportData where
  sessionId : String
  sessionTimestamp : Nat
  sessionTitle : Option String
  questions : List ExportedQuestion
  summary : ExportSummary
deriving DecidableEq, Repr

/-- `SessionStorage.exportSessionAsJSON` (lines 185–210), modelled up to JSON
serialization. -/
def exportSessionData (s : SavedSession) : ExportData :=
  { sessionId := s.id, sessionTimestamp := s.timestamp, sessionTitle := s.title,
    questions := s.questions.map (exportQuestion s.questionStates),
    summary :=
      { totalQuestions := s.questions.length,
        answered := ((s.questionStates.map Prod.snd).filter
          (fun st => st.status == .answered)).length,
        skipped := ((s.questionStates.map Prod.snd).filter
          (fun st => st.status == .skipped)).length,
        pending := ((s.questionStates.map Prod.snd).filter
          (fun st => st.status == .pending)).length } }

/-- The unanswered test used both by `isQuestionUnanswered` (lines 618–628) and
by the inline copy in `handleImportJson` (lines 1223–1233): no state entry, or
status `pending`, or an empty (`!state.answer`) or whitespace-only answer. -/
def isUnansweredIn (states : AllQuestionStates) (questionId : String) : Bool :=
  match recLookup states questionId with
  | none => true
  | some st => st.status == .pending || st.answer == "" || jsTrim st.answer == ""

/-- JS `Array.prototype.findIndex`, with `none` for `-1`. -/
def firstIdx {α : Type} (p : α → Bool) : List α → Option Nat
  | [] => none
  | a :: as => if p a then some 0 else (firstIdx p as).map (· + 1)

/-- The state entry restored for one exported question:
`{ answer: q.answer || '', status: (q.status as any) || 'pending' }`. -/
def importState (q : ExportedQuestion) : QuestionInteractionState :=
  { answer := jsOr q.answer "", status := parseStatus q.status }

/-- The component state written by `handleImportJson`. -/
structure ImportResult where
  questions : List Question
  states : AllQuestionStates
  currentIndex : Nat
  qnaActive : Bool
  sessionContinuation : Bool
deriving Repr

/-- `handleImportJson`, exported-session branch (lines 1163–1255): rebuild the
question list (`q.id || generated` — `fresh` supplies the generated
`q-<timestamp>-<index>` ids), restore answers and statuses
(`q.answer || ''`, `(q.status as any) || 'pending'`), position on the first
unanswered question (or 0 when none), and leave Q&A inactive. -/
def importExportedSession (d : ExportData) (fresh : Nat → String) : ImportResult :=
  let questionsWithIds : List Question := d.questions.enum.map (fun p =>
    { text := p.2.question,
      id := if p.2.id = "" then fresh p.1 else p.2.id,
      context := [] })
  let questionStatesData : AllQuestionStates := d.questions.foldl
    (fun m q => recAssign m q.id (importState q)) []
  if questionStatesData.length > 0 then
    let firstUnansweredIndex :=
      firstIdx (fun q => isUnansweredIn questionStatesData q.id) questionsWithIds
    { questions := questionsWithIds, states := questionStatesData,
      currentIndex := match firstUnansweredIndex with
        | some i => i
        | none => 0,
      qnaActive := false, sessionContinuation := true }
  else
    { questions := questionsWithIds,
      states := questionsWithIds.foldl
        (fun m q => recAssign m q.id { answer := "", status := .pending }) [],
      currentIndex := 0, qnaActive := false, sessionContinuation := true }

/-! ## Concrete data for counterexamples and witnesses -/

/-- Three-question session: question 1 blank, question 2 already answered,
question 3 blank — the spec's auto-advance scenario. -/
def exampleQuestions : List Question :=
  [{ id := "q1", text := "Question one", context := [] },
   { id := "q2", text := "Question two", context := [] },
   { id := "q3", text := "Question three", context := [] }]

/-- States for `exampleQuestions`. -/
def exampleStates : AllQuestionStates :=
  [("q1", { answer := "", status := .pending }),
   ("q2", { answer := "answer two", status := .answered }),
   ("q3", { answer := "", status := .pending })]

/-- A five-question list for the jump-bounds scenario. -/
def fiveQuestions : List Question :=
  [{ id := "a", text := "A", context := [] },
   { id := "b", text := "B", context := [] },
   { id := "c", text := "C", context := [] },
   { id := "d", text := "D", context := [] },
   { id := "e", text := "E", context := [] }]

/-- A session over the three-question example. -/
def exampleSession : SavedSession :=
  { id := "sess1", timestamp := 5, questions := exampleQuestions,
    questionStates := exampleStates, currentQuestionIndex := 1,
    isQnAActive := true, title := none }

/-- Eleven sessions with pairwise-distinct ids. -/
def exampleSaves : List SavedSession :=
  [{ id := "s01", timestamp := 1, questions := [], questionStates := [],
     currentQuestionIndex := 0, isQnAActive := false, title := none },
   { id := "s02", timestamp := 2, questions := [], questionStates := [],
     currentQuestionIndex := 0, isQnAActive := false, title := none },
   { id := "s03", timestamp := 3, questions := [], questionStates := [],
     currentQuestionIndex := 0, isQnAActive := false, title := none },
   { id := "s04", timestamp := 4, questions := [], questionStates := [],
     currentQuestionIndex := 0, isQnAActive := false, title := none },
   { id := "s05", timestamp := 5, questions := [], questionStates := [],
     currentQuestionIndex := 0, isQnAActive := false, title := none },
   { id := "s06", timestamp := 6, questions := [], questionStates := [],
     currentQuestionIndex := 0, isQnAActive := false, title := none },
   { id := "s07", timestamp := 7, questions := [], questionStates := [],
     currentQuestionIndex := 0, isQnAActive := false, title := none },
   { id := "s08", timestamp := 8, questions := [], questionStates := [],
     currentQuestionIndex := 0, isQnAActive := false, title := none },
   { id := "s09", timestamp := 9, questions := [], questionStates := [],
     currentQuestionIndex := 0, isQnAActive := false, title := none },
   { id := "s10", timestamp := 10, questions := [], questionStates := [],
     currentQuestionIndex := 0, isQnAActive := false, title := none },
   { id := "s11", timestamp := 11, questions := [], questionStates := [],
     currentQuestionIndex := 0, isQnAActive := false, title := none }]

/-- An exported session in which every question is already answered. -/
def exampleAllAnswered : ExportData :=
  { sessionId := "sess2", sessionTimestamp := 0, sessionTitle := none,
    questions :=
      [{ id := "q1", question := "Question one", answer := "done",
         status := "answered", extra := [] },
       { id := "q2", question := "Question two", answer := "also done",
         status := "answered", extra := [] }],
    summary := { totalQuestions := 2, answered := 2, skipped := 0, pending := 0 } }

/-! ## Helper lemmas -/

theorem jsOr_empty (a : String) : jsOr a "" = a := by
  unfold jsOr
  split <;> simp_all

theorem recLookup_map_assign {α : Type} (k : String) (v : α) :
    ∀ m : List (String × α), m.any (fun p => p.1 == k) = true →
      recLookup (m.map (fun p => if p.1 == k then (k, v) else p)) k = some v := by
  intro m
  induction m with
  | nil => simp
  | cons hd tl ih =>
    intro h
    by_cases hk : hd.1 = k
    · have hbeq : (hd.1 == k) = true := by simpa using hk
      simp only [List.map_cons]
      rw [if_pos hbeq]
      simp [recLookup]
    · have hbeq : (hd.1 == k) = false := by simpa using hk
      simp only [List.map_cons]
      rw [if_neg (by simp [hbeq])]
      simp only [recLookup, hk, if_false]
      apply ih
      simpa [List.any_cons, hbeq] using h

theorem recLookup_append_single {α : Type} (k : String) (v : α) :
    ∀ m : List (String × α), m.any (fun p => p.1 == k) = false →
      recLookup (m ++ [(k, v)]) k = some v := by
  intro m
  induction m with
  | nil => simp [recLookup]
  | cons hd tl ih =>
    intro h
    simp only [List.any_cons, Bool.or_eq_false_iff] at h
    have hk : hd.1 ≠ k := by simpa using h.1
    simp only [List.cons_append, recLookup, hk, if_false]
    exact ih h.2

/-- Writing a key and reading it back. -/
theorem recLookup_recAssign_self {α : Type} (m : List (String × α)) (k : String) (v : α) :
    recLookup (recAssign m k v) k = some v := by
  unfold recAssign
  by_cases h : m.any (fun p => p.1 == k) = true
  · rw [if_pos h]
    exact recLookup_map_assign k v m h
  · rw [if_neg h]
    have hfalse : (m.any fun p => p.1 == k) = false := by
      cases hx : (m.any fun p => p.1 == k)
      · rfl
      · exact absurd hx h
    exact recLookup_append_single k v m hfalse

/-- Assigning a key absent from the map appends. -/
theorem recAssign_of_fresh {α : Type} (m : List (String × α)) (k : String) (v : α)
    (h : ∀ p ∈ m, p.1 ≠ k) : recAssign m k v = m ++ [(k, v)] := by
  have hany : (m.any fun p => p.1 == k) = false := by
    rw [List.any_eq_false]
    intro p hp
    simp [h p hp]
  unfold recAssign
  rw [if_neg (by simp [hany])]

/-- Folding JS assignments of pairwise-distinct fresh keys over a map appends
them in order. -/
theorem foldl_recAssign_append {α V : Type} (key : α → String) (val : α → V) :
    ∀ (l : List α) (acc : List (String × V)),
      (l.map key).Nodup → (∀ a ∈ l, ∀ p ∈ acc, p.1 ≠ key a) →
      l.foldl (fun m a => recAssign m (key a) (val a)) acc =
        acc ++ l.map (fun a => (key a, val a)) := by
  intro l
  induction l with
  | nil => intro acc _ _; simp
  | cons a rest ih =>
    intro acc hnd hdisj
    rw [List.map_cons, List.nodup_cons] at hnd
    obtain ⟨hnotin, hnd2⟩ := hnd
    have ha : recAssign acc (key a) (val a) = acc ++ [(key a, val a)] :=
      recAssign_of_fresh acc (key a) (val a)
        (fun p hp => hdisj a (List.mem_cons_self a rest) p hp)
    simp only [List.foldl_cons, ha]
    rw [ih (acc ++ [(key a, val a)]) hnd2]
    · simp
    · intro b hb p hp
      rcases List.mem_append.mp hp with hmem | hmem
      · exact hdisj b (List.mem_cons_of_mem a hb) p hmem
      · have hp1 : p.1 = key a := by
          rcases List.mem_singleton.mp hmem with rfl; rfl
        rw [hp1]
        intro hcontra
        exact hnotin (hcontra ▸ List.mem_map_of_mem key hb)

/-- Reading any element's key from the association list built from a list with
pairwise-distinct keys gives its value. -/
theorem recLookup_map_self {α V : Type} (key : α → String) (val : α → V) :
    ∀ l : List α, (l.map key).Nodup → ∀ a ∈ l,
      recLookup (l.map (fun x => (key x, val x))) (key a) = some (val a) := by
  intro l
  induction l with
  | nil => simp
  | cons b rest ih =>
    intro hnd a ha
    rw [List.map_cons, List.nodup_cons] at hnd
    obtain ⟨hnotin, hnd2⟩ := hnd
    rcases List.mem_cons.mp ha with rfl | ha
    · simp [recLookup]
    · have hne : key b ≠ key a := by
        intro hcontra
        exact hnotin (hcontra ▸ List.mem_map_of_mem key ha)
      simp only [List.map_cons, recLookup, hne, if_false]
      exact ih hnd2 a ha

/-- Truncating before appending is absorbed by the outer truncation. -/
theorem take_append_take {α : Type} (l m : List α) (n : Nat) :
    (l ++ m.take n).take n = (l ++ m).take n := by
  rw [List.take_append_eq_append_take, List.take_append_eq_append_take, List.take_take]
  congr 1
  exact congrArg m.take (Nat.min_eq_left (Nat.sub_le n l.length))

/-- `saveToHistory` always produces the first ten of the filtered-unshifted list. -/
theorem saveToHistory_eq_take (session : SavedSession) (acc : List SavedSession) :
    saveToHistory session acc =
      (session :: acc.filter (fun s => s.id != session.id)).take 10 := by
  have hdef : saveToHistory session acc =
      (if (session :: acc.filter (fun s => s.id != session.id)).length > 10 then
        (session :: acc.filter (fun s => s.id != session.id)).take 10
      else session :: acc.filter (fun s => s.id != session.id)) := rfl
  rw [hdef]
  split
  · rfl
  · next h => exact (List.take_of_length_le (Nat.le_of_not_lt h)).symm

/-- Filtering by a fresh id is the identity. -/
theorem filter_ne_id (session : SavedSession) (acc : List SavedSession)
    (h : ∀ x ∈ acc, x.id ≠ session.id) :
    acc.filter (fun s => s.id != session.id) = acc := by
  apply List.filter_eq_self.mpr
  intro a ha
  simpa using h a ha

/-- Saving sessions with pairwise-distinct fresh ids stacks them most-recent
first, truncated to ten. -/
theorem foldl_save_eq : ∀ (ss : List SavedSession) (acc : List SavedSession),
    (ss.map (fun s => s.id)).Nodup →
    (∀ x ∈ ss, ∀ y ∈ acc, y.id ≠ x.id) →
    acc.length ≤ 10 →
    ss.foldl (fun history s => saveToHistory s history) acc =
      (ss.reverse ++ acc).take 10 := by
  intro ss
  induction ss with
  | nil =>
    intro acc _ _ hlen
    simp [List.take_of_length_le hlen]
  | cons s rest ih =>
    intro acc hnd hdisj hlen
    rw [List.map_cons, List.nodup_cons] at hnd
    obtain ⟨hnotin, hnd2⟩ := hnd
    have hstep : saveToHistory s acc = (s :: acc).take 10 := by
      rw [saveToHistory_eq_take,
        filter_ne_id s acc (fun x hx => hdisj s (List.mem_cons_self s rest) x hx)]
    simp only [List.foldl_cons, hstep]
    rw [ih ((s :: acc).take 10) hnd2]
    · rw [take_append_take]
      simp [List.append_assoc]
    · intro b hb y hy
      have hy' : y ∈ s :: acc := List.mem_of_mem_take hy
      rcases List.mem_cons.mp hy' with rfl | hy''
      · intro hcontra
        exact hnotin (hcontra ▸ List.mem_map_of_mem _ hb)
      · exact hdisj b (List.mem_cons_of_mem s hb) y hy''
    · exact List.length_take_le 10 (s :: acc)

/-- A non-empty sequence of saves leaves at most ten entries. -/
theorem saveAll_length_le : ∀ (ss : List SavedSession) (acc : List SavedSession),
    acc.length ≤ 10 →
    (ss.foldl (fun history s => saveToHistory s history) acc).length ≤ 10 := by
  intro ss
  induction ss with
  | nil => intro acc h; simpa using h
  | cons s rest ih =>
    intro acc _
    simp only [List.foldl_cons]
    apply ih
    rw [saveToHistory_eq_take]
    exact List.length_take_le 10 _

/-- Context spreads that avoid the four reserved keys leave the exported
question object unchanged. -/
theorem foldl_ctxOverride_clean :
    ∀ (ctx : List (String × String)) (e : ExportedQuestion),
      (∀ kv ∈ ctx, kv.1 ≠ "id" ∧ kv.1 ≠ "question" ∧ kv.1 ≠ "answer" ∧ kv.1 ≠ "status") →
      ctx.foldl applyCtxOverride e = e := by
  intro ctx
  induction ctx with
  | nil => intro e _; rfl
  | cons kv rest ih =>
    intro e h
    have hkv := h kv (List.mem_cons_self kv rest)
    have hstep : applyCtxOverride e kv = e := by
      unfold applyCtxOverride
      rw [if_neg hkv.1, if_neg hkv.2.1, if_neg hkv.2.2.1, if_neg hkv.2.2.2]
    simp only [List.foldl_cons, hstep]
    exact ih e (fun x hx => h x (List.mem_cons_of_mem kv hx))

/-- Statuses survive export serialization and re-parsing. -/
theorem parseStatus_statusString (σ : QuestionStatus) :
    parseStatus (jsOr (statusString σ) "pending") = σ := by
  cases σ <;> rfl

/-- `firstIdx` returns `none` exactly when no element satisfies the test. -/
theorem firstIdx_eq_none_iff {α : Type} (p : α → Bool) :
    ∀ l : List α, firstIdx p l = none ↔ ∀ a ∈ l, p a = false := by
  intro l
  induction l with
  | nil => simp [firstIdx]
  | cons a rest ih =>
    constructor
    · intro h b hb
      by_cases hpa : p a
      · simp [firstIdx, hpa] at h
      · rcases List.mem_cons.mp hb with rfl | hb'
        · simpa using hpa
        · rcases hfi : firstIdx p rest with _ | i
          · exact ih.mp hfi b hb'
          · simp [firstIdx, hpa, hfi] at h
    · intro h
      have hpa : p a = false := h a (List.mem_cons_self a rest)
      have hrest : firstIdx p rest = none :=
        ih.mpr (fun b hb => h b (List.mem_cons_of_mem a hb))
      simp [firstIdx, hpa, hrest]

/-- `firstIdx` finds the least index satisfying the test. -/
theorem firstIdx_eq_some_spec {α : Type} (p : α → Bool) :
    ∀ (l : List α) (i : Nat), firstIdx p l = some i →
      (∃ a, l[i]? = some a ∧ p a = true) ∧
      (∀ j, j < i → ∀ b, l[j]? = some b → p b = false) := by
  intro l
  induction l with
  | nil => simp [firstIdx]
  | cons a rest ih =>
    intro i h
    by_cases hpa : p a
    · simp only [firstIdx, hpa, if_true, Option.some_inj] at h
      subst h
      exact ⟨⟨a, by simp, hpa⟩, fun j hj => by omega⟩
    · simp only [firstIdx, hpa, Bool.false_eq_true, if_false, Option.map_eq_some'] at h
      obtain ⟨i', hi', rfl⟩ := h
      obtain ⟨⟨b, hb, hpb⟩, hmin⟩ := ih i' hi'
      refine ⟨⟨b, by simpa using hb, hpb⟩, ?_⟩
      intro j hj c hc
      cases j with
      | zero =>
        simp only [List.getElem?_cons_zero, Option.some_inj] at hc
        subst hc
        simpa using hpa
      | succ j' =>
        simp only [List.getElem?_cons_succ] at hc
        exact hmin j' (by omega) c hc

/-- `runSession` never reads the vestigial `autoRestart` field: the settlement
and restart count depend only on the other three object fields. -/
theorem runSession_autoRestart_irrel :
    ∀ (events : List SpeechEvent) (o₁ o₂ : EngineObj) (loc : SessionLocals),
      o₁.isListening = o₂.isListening → o₁.manualStop = o₂.manualStop →
      o₁.accumulatedTranscript = o₂.accumulatedTranscript →
      (runSession events o₁ loc).outcome = (runSession events o₂ loc).outcome ∧
      (runSession events o₁ loc).restarts = (runSession events o₂ loc).restarts := by
  intro events
  induction events with
  | nil => intro o₁ o₂ loc _ _ _; exact ⟨rfl, rfl⟩
  | cons e rest ih =>
    intro o₁ o₂ loc h1 h2 h3
    cases e with
    | result t isFinal => exact ih o₁ o₂ _ h1 h2 h3
    | errNoSpeech => exact ih _ _ loc (by simp) (by simpa) (by simpa)
    | errAborted => exact ih _ _ loc (by simp) (by simpa) (by simpa)
    | errOther m => exact ⟨rfl, rfl⟩
    | silenceTimerFires =>
      have hrec1 := ih o₁ o₂ { loc with stoppedBySilenceTimer := true } h1 h2 h3
      have hrec2 := ih o₁ o₂ loc h1 h2 h3
      simp only [runSession, h1]
      split_ifs with hc
      · exact hrec1
      · exact hrec2
    | initialTimeoutFires =>
      have hrec1 := ih o₁ o₂ { loc with stoppedBySilenceTimer := true } h1 h2 h3
      have hrec2 := ih o₁ o₂ loc h1 h2 h3
      simp only [runSession, h1]
      split_ifs with hc
      · exact hrec1
      · exact hrec2
    | callerStops =>
      have hrec1 := ih
        { o₁ with manualStop := true, autoRestart := false,
                  accumulatedTranscript := "", isListening := false }
        { o₂ with manualStop := true, autoRestart := false,
                  accumulatedTranscript := "", isListening := false }
        loc rfl rfl rfl
      have hrec2 := ih o₁ o₂ loc h1 h2 h3
      simp only [runSession, h1]
      split_ifs with hc
      · exact hrec1
      · exact hrec2
    | ended =>
      -- after a restart both sides continue from the identical engine object
      -- ⟨true, false, true, ""⟩, so every branch closes definitionally.
      simp only [runSession, startSession, h1, h2]
      split_ifs with hc1 hc2
      · exact ⟨rfl, rfl⟩
      · exact ⟨rfl, rfl⟩
      · exact ⟨rfl, rfl⟩

/-- A JS assignment never shrinks an object. -/
theorem recAssign_length_ge {α : Type} (m : List (String × α)) (k : String) (v : α) :
    m.length ≤ (recAssign m k v).length := by
  unfold recAssign
  split
  · simp
  · simp

/-- Folding JS assignments never shrinks an object. -/
theorem foldl_recAssign_length_ge {α β : Type} (key : α → String) (val : α → β) :
    ∀ (l : List α) (m : List (String × β)),
      m.length ≤ (l.foldl (fun acc a => recAssign acc (key a) (val a)) m).length := by
  intro l
  induction l with
  | nil => intro m; simp
  | cons a rest ih =>
    intro m
    calc m.length ≤ (recAssign m (key a) (val a)).length := recAssign_length_ge m _ _
      _ ≤ _ := ih _

/-- When no command is recognized, `processVoiceCommands` returns the whole
transcript as the cleaned answer with no command and no state write. -/
theorem processVoiceCommands_of_not_executed (text currentQuestionId : String)
    (h : (processVoiceCommands text currentQuestionId).commandExecuted = false) :
    processVoiceCommands text currentQuestionId =
      { cleanedText := text, commandExecuted := false, command := none,
        targetQuestionNumber := none, clearWrite := none } := by
  unfold processVoiceCommands at h ⊢
  rcases hj : jumpParse (lowerStr (jsTrim text)) with _ | n
  · rcases hs : standaloneLookup (lowerStr (jsTrim text)) with _ | c
    · rcases hp : firstPrefixedMatch text prefixedGroups with _ | r
      · simp [hj, hs, hp]
      · simp [hj, hs, hp] at h
    · simp [hj, hs] at h
  · simp [hj] at h

/-- A `getElem?` hit bounds the index. -/
theorem lt_length_of_getElem?_eq_some {α : Type} {l : List α} {i : Nat} {a : α}
    (h : l[i]? = some a) : i < l.length := by
  by_contra hge
  rw [List.getElem?_eq_none (by omega)] at h
  exact Option.noConfusion h

/-- Teardown never touches `speaking`. -/
theorem teardownSTT_speaking (s : OrchState) :
    (teardownSTT s).speaking = s.speaking := by
  unfold teardownSTT stopL
  split_ifs <;> rfl

/-- Teardown never touches `reading`. -/
theorem teardownSTT_reading (s : OrchState) :
    (teardownSTT s).reading = s.reading := by
  unfold teardownSTT stopL
  split_ifs <;> rfl

/-- Teardown leaves `isTranscribing` cleared. -/
theorem teardownSTT_transcribing (s : OrchState) :
    (teardownSTT s).transcribing = false := by
  unfold teardownSTT stopL
  split_ifs <;> simp_all

/-- Teardown never cancels a pending self-restart: `stopListening()` can only
set `manualStop`, and only when the engine session is still live. -/
theorem teardownSTT_pendingRestart (s : OrchState) :
    (teardownSTT s).pendingRestart = s.pendingRestart := by
  unfold teardownSTT stopL
  split_ifs <;> rfl

/-- When a live engine session is always tracked by `isTranscribing`, teardown
leaves the engine stopped: either the guard fires and `stopListening()` stops
the session, or there is nothing to stop. -/
theorem teardownSTT_engineListening_eq_false (s : OrchState)
    (h2 : s.engineListening = true → s.transcribing = true) :
    (teardownSTT s).engineListening = false := by
  unfold teardownSTT stopL
  split_ifs <;> simp_all

/-- Inductive invariant of the doubly-guarded orchestrator: playback excludes
a live capture session, a live session is always tracked by `isTranscribing`,
and a pending self-restart implies the engine has ended, capture is still
tracked, and nothing is speaking. -/
theorem orchInvariant (s : OrchState) (h : OrchReach false false s) :
    (s.speaking = true → s.engineListening = false) ∧
    (s.engineListening = true → s.transcribing = true) ∧
    (s.pendingRestart = true → s.engineListening = false) ∧
    (s.pendingRestart = true → s.transcribing = true) ∧
    (s.pendingRestart = true → s.speaking = false) := by
  induction h with
  | init => simp [initOrch]
  | step hr hstep ih =>
    obtain ⟨i1, i2, i3, i4, i5⟩ := ih
    cases hstep <;>
      simp_all [teardownSTT_speaking, teardownSTT_reading,
        teardownSTT_transcribing, teardownSTT_pendingRestart,
        teardownSTT_engineListening_eq_false]

/-! ## Claim theorems -/

/-- C1 (counterexample): the claim that along every interleaving of engine
completions and user intents at most one of the TTS and STT engines runs at
any instant is false for the source in two independent ways.  First trace
(`unguardedSummary := true`, restart windows respected): after Start Q&A, the
question being read to completion, and capture starting, the Summary palette
button (`handleShowSummary`, which never stops an in-flight capture) starts a
summary utterance while the capture engine is listening.  Second trace
(`unguardedWindow := true`, summary guarded): with capture live, a bare engine
`onend` clears `isListening` and schedules the 100 ms self-restart; the user
clicks Next inside that window, and `navigate`'s teardown calls
`stopListening()` — a no-op, since `isListening` is already false, so
`manualStop` stays false — then the deferred `readQuestionAndPotentiallyListen`
starts reading the next question, and the restart timer fires and puts the
engine back into a listening session under the running utterance.  Both final
states have speech synthesis speaking and the capture engine listening
simultaneously, and the second uses no summary intent at all. -/
theorem C1_counterexample :
    (OrchReach true false
      { speaking := true, reading := false, transcribing := true,
        engineListening := true, pendingRestart := false, manualStop := false,
        paused := false, pausedType := none, qna := true } ∧
    ({ speaking := true, reading := false, transcribing := true,
       engineListening := true, pendingRestart := false, manualStop := false,
       paused := false, pausedType := none, qna := true : OrchState }).speaking = true ∧
    ({ speaking := true, reading := false, transcribing := true,
       engineListening := true, pendingRestart := false, manualStop := false,
       paused := false, pausedType := none, qna := true : OrchState }).engineListening = true) ∧
    (OrchReach false true
      { speaking := true, reading := true, transcribing := false,
        engineListening := true, pendingRestart := false, manualStop := false,
        paused := false, pausedType := none, qna := true } ∧
    ({ speaking := true, reading := true, transcribing := false,
       engineListening := true, pendingRestart := false, manualStop := false,
       paused := false, pausedType := none, qna := true : OrchState }).speaking = true ∧
    ({ speaking := true, reading := true, transcribing := false,
       engineListening := true, pendingRestart := false, manualStop := false,
       paused := false, pausedType := none, qna := true : OrchState }).engineListening = true) := by
  constructor
  · refine ⟨?_, rfl, rfl⟩
    have h1 : OrchReach true false
        { speaking := false, reading := false, transcribing := false,
          engineListening := false, pendingRestart := false, manualStop := false,
          paused := false, pausedType := none, qna := true } :=
      OrchReach.step OrchReach.init (OrchStep.startQnA initOrch rfl (Or.inr rfl))
    have h2 : OrchReach true false
        { speaking := true, reading := true, transcribing := false,
          engineListening := false, pendingRestart := false, manualStop := false,
          paused := false, pausedType := none, qna := true } :=
      OrchReach.step h1 (OrchStep.readQuestion _ rfl (Or.inr rfl))
    have h3 : OrchReach true false
        { speaking := false, reading := false, transcribing := false,
          engineListening := false, pendingRestart := false, manualStop := false,
          paused := false, pausedType := none, qna := true } :=
      OrchReach.step h2 (OrchStep.ttsEnd _ rfl rfl)
    have h4 : OrchReach true false
        { speaking := false, reading := false, transcribing := true,
          engineListening := true, pendingRestart := false, manualStop := false,
          paused := false, pausedType := none, qna := true } :=
      OrchReach.step h3 (OrchStep.sttStart _ rfl rfl rfl)
    exact OrchReach.step h4 (OrchStep.summaryUI _ (Or.inl rfl) (Or.inr rfl))
  · refine ⟨?_, rfl, rfl⟩
    have h1 : OrchReach false true
        { speaking := false, reading := false, transcribing := false,
          engineListening := false, pendingRestart := false, manualStop := false,
          paused := false, pausedType := none, qna := true } :=
      OrchReach.step OrchReach.init (OrchStep.startQnA initOrch rfl (Or.inl rfl))
    have h2 : OrchReach false true
        { speaking := true, reading := true, transcribing := false,
          engineListening := false, pendingRestart := false, manualStop := false,
          paused := false, pausedType := none, qna := true } :=
      OrchReach.step h1 (OrchStep.readQuestion _ rfl (Or.inl rfl))
    have h3 : OrchReach false true
        { speaking := false, reading := false, transcribing := false,
          engineListening := false, pendingRestart := false, manualStop := false,
          paused := false, pausedType := none, qna := true } :=
      OrchReach.step h2 (OrchStep.ttsEnd _ rfl rfl)
    have h4 : OrchReach false true
        { speaking := false, reading := false, transcribing := true,
          engineListening := true, pendingRestart := false, manualStop := false,
          paused := false, pausedType := none, qna := true } :=
      OrchReach.step h3 (OrchStep.sttStart _ rfl rfl rfl)
    have h5 : OrchReach false true
        { speaking := false, reading := false, transcribing := true,
          engineListening := false, pendingRestart := true, manualStop := false,
          paused := false, pausedType := none, qna := true } :=
      OrchReach.step h4 (OrchStep.spontaneousEnd _ rfl)
    have h6 : OrchReach false true
        { speaking := false, reading := false, transcribing := false,
          engineListening := false, pendingRestart := true, manualStop := false,
          paused := false, pausedType := none, qna := true } :=
      OrchReach.step h5 (OrchStep.navigateUI _ rfl (Or.inl rfl))
    have h7 : OrchReach false true
        { speaking := true, reading := true, transcribing := false,
          engineListening := false, pendingRestart := true, manualStop := false,
          paused := false, pausedType := none, qna := true } :=
      OrchReach.step h6 (OrchStep.readQuestion _ rfl (Or.inl rfl))
    exact OrchReach.step h7 (OrchStep.restartFires _ rfl rfl)

/-- C1 (amended): with the summary intent restricted to fire only while the
capture engine is not listening, and the teardown-performing and summary
handlers restricted to fire only while no 100 ms engine self-restart window is
pending (inside such a window `stopListening()` is a no-op, so a teardown
cannot actually stop the engine from coming back), the mutual-exclusion
invariant holds in every reachable state: `actuallyStartTranscription` refuses
to start capture while synthesis is speaking or a question is being read, the
self-restart only resumes a capture that no playback has started over, and
`readQuestionAndPotentiallyListen` (like `navigate`, `handleReadAloud`,
toggling and pausing) stops any live capture session before starting playback,
so speaking and a listening capture engine never hold simultaneously. -/
theorem C1_speaking_listening_exclusive (s : OrchState)
    (hreach : OrchReach false false s) :
    ¬(s.speaking = true ∧ s.engineListening = true) := by
  intro hcontra
  have h1 := (orchInvariant s hreach).1 hcontra.1
  rw [h1] at hcontra
  exact Bool.false_ne_true hcontra.2

/-- C1 (witness): the invariant instantiated at the concrete reachable state in
which capture is live after a full read-then-listen turn entry. -/
theorem C1_witness :
    ¬(({ speaking := false, reading := false, transcribing := true,
         engineListening := true, pendingRestart := false, manualStop := false,
         paused := false, pausedType := none, qna := true : OrchState }).speaking = true ∧
      ({ speaking := false, reading := false, transcribing := true,
         engineListening := true, pendingRestart := false, manualStop := false,
         paused := false, pausedType := none, qna := true : OrchState }).engineListening = true) :=
  C1_speaking_listening_exclusive _
    (OrchReach.step
      (OrchReach.step
        (OrchReach.step
          (OrchReach.step OrchReach.init (OrchStep.startQnA initOrch rfl (Or.inr rfl)))
          (OrchStep.readQuestion _ rfl (Or.inr rfl)))
        (OrchStep.ttsEnd _ rfl rfl))
      (OrchStep.sttStart _ rfl rfl rfl))

/-- C2 (counterexample): the claim that a recoverable `no-speech`/`aborted`
engine end after detected speech triggers an automatic internal restart that
preserves the accumulated transcript is false on both counts.  (a) After a
final result "hello", a `no-speech` error and the engine's `end`, the promise
resolves with "hello" and performs zero restarts — `onerror` clears
`isListening`, so `onend` sees `wasListening = false` and never restarts.
(b) The restart that does fire on a bare engine `end` (no preceding error)
starts fresh: after "hello", a bare end, then "world" ended by the silence
timer, the promise resolves with "world" — one restart happened and the
pre-restart segment is discarded, not concatenated. -/
theorem C2_counterexample :
    (runStartListening [.result "hello" true, .errNoSpeech, .ended]).restarts = 0 ∧
    (runStartListening [.result "hello" true, .errNoSpeech, .ended]).outcome =
      .resolved "hello" ∧
    (runStartListening [.result "hello" true, .ended, .result "world" true,
      .silenceTimerFires, .ended]).restarts = 1 ∧
    (runStartListening [.result "hello" true, .ended, .result "world" true,
      .silenceTimerFires, .ended]).outcome = .resolved "world" ∧
    ("world" : String) ≠ "hello world" :=
  ⟨by decide, by decide, by decide, by decide, by decide⟩

/-- C2 (amended): a `no-speech`/`aborted` error suppresses rejection but also
clears the listening flag, so the following engine `end` resolves the promise
with the transcript of the current pass and no automatic restart occurs.  The
auto-restart fires only on a bare engine `end` after speech with no silence-timer
or manual stop, and it is a fresh `startListening` pass: whatever script follows,
the promise settles exactly as a fresh session over the remaining events would
(with one more restart counted), the previously accumulated segment being
discarded. -/
theorem C2_autorestart_amended :
    (∀ rest : List SpeechEvent,
      (runStartListening (SpeechEvent.result "hello" true ::
        SpeechEvent.errNoSpeech :: SpeechEvent.ended :: rest)).outcome =
          SettleOutcome.resolved "hello" ∧
      (runStartListening (SpeechEvent.result "hello" true ::
        SpeechEvent.errNoSpeech :: SpeechEvent.ended :: rest)).restarts = 0) ∧
    (∀ rest : List SpeechEvent,
      (runStartListening (SpeechEvent.result "hello" true ::
        SpeechEvent.ended :: rest)).outcome = (runStartListening rest).outcome ∧
      (runStartListening (SpeechEvent.result "hello" true ::
        SpeechEvent.ended :: rest)).restarts = (runStartListening rest).restarts + 1) := by
  constructor
  · intro rest
    exact ⟨rfl, rfl⟩
  · intro rest
    have h := runSession_autoRestart_irrel rest
      { isListening := true, manualStop := false, autoRestart := true,
        accumulatedTranscript := "" }
      { isListening := true, manualStop := false, autoRestart := false,
        accumulatedTranscript := "" }
      { finalTranscript := "", hasSpoken := false, stoppedBySilenceTimer := false }
      rfl rfl rfl
    exact ⟨h.1, congrArg (fun n => n + 1) h.2⟩

/-- C7: `stopListening()` is a normal end, not an error: it clears the
accumulated transcript buffer (`accumulatedTranscript := ''`) and suppresses
the auto-restart heuristic (`manualStop := true`, `autoRestart := false`), so
whatever events follow, the pending `startListening()` promise resolves at the
engine's `end` without any automatic internal restart. -/
theorem C7_manual_stop (rest : List SpeechEvent) :
    runStartListening (SpeechEvent.result "hello" true ::
      SpeechEvent.callerStops :: SpeechEvent.ended :: rest) =
      { outcome := .resolved "hello", restarts := 0,
        engine := { isListening := false, manualStop := true, autoRestart := false,
                    accumulatedTranscript := "" } } := rfl

/-- C3 (counterexample): the dual-mode auto-advance is not what the current
revision implements.  In the spec's scenario — three questions, question 1
blank, question 2 already answered — capturing the non-empty commandless answer
"some answer" on question 1 lands on index 1 (question 2), not on index 2
(question 3, the next pending one) as the claim's completing mode requires. -/
theorem C3_counterexample :
    (captureStep exampleQuestions exampleStates 0 true "some answer").index = 1 ∧
    ¬((captureStep exampleQuestions exampleStates 0 true "some answer").index = 2) :=
  ⟨by decide, by decide⟩

/-- C3 (amended): after a capture yields a non-empty cleaned answer with no
command, the current revision always advances sequentially by one —
`navigate('next')`, target `min(len-1, idx+1)` — regardless of whether the
question's answer was blank before the capture (completing and reviewing
situations behave identically), reporting end-of-list at the last question; the
answer is merged (replacing a blank answer, appended with a space otherwise)
and the status becomes `answered`.  The jump-to-next-pending completing mode
exists only in the older revision (src/unnamed/part_003). -/
theorem C3_sequential_advance (questions : List Question) (states : AllQuestionStates)
    (currentIndex : Nat) (q : Question) (st : QuestionInteractionState)
    (transcript : String)
    (hq : questions[currentIndex]? = some q)
    (hst : recLookup states q.id = some st)
    (hmode : jsTrim st.answer = "" ∨ st.status ≠ .pending)
    (hcmd : (processVoiceCommands transcript q.id).commandExecuted = false)
    (hclean : jsTrim transcript ≠ "") :
    (captureStep questions states currentIndex true transcript).index =
      min (questions.length - 1) (currentIndex + 1) ∧
    recLookup (captureStep questions states currentIndex true transcript).states q.id =
      some { answer := if jsTrim st.answer = "" then jsTrim transcript
               else st.answer ++ " " ++ jsTrim transcript,
             status := .answered } ∧
    (currentIndex = questions.length - 1 →
      (captureStep questions states currentIndex true transcript).endToast = true) ∧
    (captureStep questions states currentIndex true transcript).schedulesRestart = false := by
  have hr := processVoiceCommands_of_not_executed transcript q.id hcmd
  have hlt : currentIndex < questions.length := lt_length_of_getElem?_eq_some hq
  have hguard : ¬(questions.length = 0 ∨ (true : Bool) = false) := by
    rintro (h0 | hb)
    · omega
    · simp at hb
  have hnav : navigateDecision questions states currentIndex true .next none =
      some { write := none,
             newIndex := min (questions.length - 1) (currentIndex + 1),
             endToast := decide (min (questions.length - 1) (currentIndex + 1) = currentIndex ∧
               (NavDirection.next = NavDirection.next ∨ NavDirection.next = NavDirection.skip) ∧
               currentIndex = questions.length - 1) } := by
    unfold navigateDecision
    rw [if_neg hguard]
    simp only [hq, hst]
    rcases hmode with hblank | hnp
    · rcases hp : st.status with _ | _ | _
      · simp [hp, hblank]
      · simp [hp]
      · simp [hp]
    · rw [if_neg hnp]
  unfold captureStep
  rw [hq]
  simp only [hr]
  rw [if_neg hclean]
  simp only [hst, jsOr_empty]
  rw [if_pos hclean]
  rw [if_pos (⟨hclean, trivial⟩ : jsTrim transcript ≠ "" ∧ True)]
  rw [hnav]
  simp only [applyNav]
  refine ⟨trivial, ?_, ?_, trivial⟩
  · exact recLookup_recAssign_self states q.id _
  · intro hlast
    simp only [decide_eq_true_eq]
    exact ⟨by omega, Or.inl trivial, hlast⟩

/-- C3 (witness): reviewing situation on the concrete session — re-answering
the already-answered question 2 appends the new text and advances to index 2. -/
theorem C3_witness :
    (captureStep exampleQuestions exampleStates 1 true "more detail").index = 2 ∧
    recLookup (captureStep exampleQuestions exampleStates 1 true "more detail").states
      "q2" = some { answer := "answer two more detail", status := .answered } := by
  have h := C3_sequential_advance exampleQuestions exampleStates 1
    { id := "q2", text := "Question two", context := [] }
    { answer := "answer two", status := .answered } "more detail"
    (by decide) (by decide) (Or.inr (by decide)) (by decide) (by decide)
  refine ⟨?_, ?_⟩
  · rw [h.1]
    decide
  · rw [h.2.1]
    decide

/-- C5: the voice `jump(n)` dispatch on a non-empty list rejects an
out-of-range `n` (`n < 1` or `n > len`) with the "Invalid Jump" toast and
leaves states and index unchanged, while an in-range `n` moves the index to
`n - 1` with no error. -/
theorem C5_jump_validation (questions : List Question) (states : AllQuestionStates)
    (currentIndex : Nat) (n : Nat) (hne : questions ≠ []) :
    ((n < 1 ∨ questions.length < n) →
      voiceJumpStep questions states currentIndex true n =
        { states := states, index := currentIndex, invalidToast := true }) ∧
    (1 ≤ n → n ≤ questions.length →
      (voiceJumpStep questions states currentIndex true n).index = n - 1 ∧
      (voiceJumpStep questions states currentIndex true n).invalidToast = false) := by
  have hlen : questions.length ≠ 0 := by
    intro h
    exact hne (List.eq_nil_of_length_eq_zero h)
  constructor
  · intro hout
    unfold voiceJumpStep
    rw [if_neg]
    rintro ⟨h0, h1, h2⟩
    omega
  · intro hge hle
    unfold voiceJumpStep
    rw [if_pos ⟨by omega, hge, hle⟩]
    unfold navigateDecision
    rw [if_neg (by simp [hlen])]
    refine ⟨?_, ?_⟩
    · show (max 0 (min ((questions.length : Int) - 1) ((n : Int) - 1))).toNat = n - 1
      omega
    · rfl

/-- C5 (witness): on the five-question list, `jump(0)` and `jump(6)` are
rejected with the index unchanged, and `jump(5)` lands on the last question. -/
theorem C5_witness :
    voiceJumpStep fiveQuestions [] 2 true 0 =
      { states := [], index := 2, invalidToast := true } ∧
    voiceJumpStep fiveQuestions [] 2 true 6 =
      { states := [], index := 2, invalidToast := true } ∧
    (voiceJumpStep fiveQuestions [] 2 true 5).index = 4 ∧
    (voiceJumpStep fiveQuestions [] 2 true 5).invalidToast = false := by
  refine ⟨?_, ?_, ?_, ?_⟩
  · exact (C5_jump_validation fiveQuestions [] 2 0 (by decide)).1 (by omega)
  · exact (C5_jump_validation fiveQuestions [] 2 6 (by decide)).1 (by decide)
  · exact ((C5_jump_validation fiveQuestions [] 2 5 (by decide)).2 (by omega) (by decide)).1
  · exact ((C5_jump_validation fiveQuestions [] 2 5 (by decide)).2 (by omega) (by decide)).2

/-- C4: the session history never exceeds 10 entries for any sequence of
saves, and saving 11 sessions with pairwise-distinct ids leaves exactly the 10
most recent, most-recent first (`ss.reverse.take 10` of the save order): the
11th distinct save evicts the oldest. -/
theorem C4_history_cap (ss : List SavedSession) :
    (saveAll ss).length ≤ 10 ∧
    ((ss.map (fun s => s.id)).Nodup → ss.length = 11 →
      saveAll ss = ss.reverse.take 10 ∧ (saveAll ss).length = 10) := by
  constructor
  · exact saveAll_length_le ss [] (by simp)
  · intro hnd hlen
    have heq : saveAll ss = (ss.reverse ++ []).take 10 :=
      foldl_save_eq ss [] hnd (by simp) (by simp)
    rw [List.append_nil] at heq
    refine ⟨heq, ?_⟩
    rw [heq, List.length_take, List.length_reverse, hlen]
    decide

/-- C4 (witness): saving the 11 concrete distinct sessions leaves exactly the
10 most recent, newest first. -/
theorem C4_witness :
    saveAll exampleSaves = exampleSaves.reverse.take 10 ∧
    (saveAll exampleSaves).length = 10 :=
  (C4_history_cap exampleSaves).2 (by decide) (by decide)

/-- C6: the Voice Command Interpreter checks the full trimmed lowercased
transcript against the jump forms and the exact-match standalone table first;
only with no exact match does it scan for a wake-phrase-prefixed legacy
command, stripping the matched phrase and returning the remainder as the
cleaned answer alongside the command; if neither matches, the whole transcript
is the cleaned answer with no command.  In particular
"my answer is forty daytrace next" yields cleaned text "my answer is forty"
and the `next` command. -/
theorem C6_command_matching :
    processVoiceCommands "my answer is forty daytrace next" "q7" =
      { cleanedText := "my answer is forty", commandExecuted := true,
        command := some .next, targetQuestionNumber := none, clearWrite := none } ∧
    (∀ text qid n, jumpParse (lowerStr (jsTrim text)) = some n →
      processVoiceCommands text qid =
        { cleanedText := "", commandExecuted := true, command := some .jump,
          targetQuestionNumber := some n, clearWrite := none }) ∧
    (∀ text qid c, jumpParse (lowerStr (jsTrim text)) = none →
      standaloneLookup (lowerStr (jsTrim text)) = some c →
      processVoiceCommands text qid =
        { cleanedText := "", commandExecuted := true, command := some c,
          targetQuestionNumber := none,
          clearWrite := if c = .clear then
            some (qid, { answer := "", status := .pending }) else none }) ∧
    (∀ text qid r, jumpParse (lowerStr (jsTrim text)) = none →
      standaloneLookup (lowerStr (jsTrim text)) = none →
      firstPrefixedMatch text prefixedGroups = some r →
      processVoiceCommands text qid =
        { cleanedText := r.1, commandExecuted := true, command := some r.2.1,
          targetQuestionNumber := none,
          clearWrite := if r.2.2 then
            some (qid, { answer := "", status := .pending }) else none }) ∧
    (∀ text qid, jumpParse (lowerStr (jsTrim text)) = none →
      standaloneLookup (lowerStr (jsTrim text)) = none →
      firstPrefixedMatch text prefixedGroups = none →
      processVoiceCommands text qid =
        { cleanedText := text, commandExecuted := false, command := none,
          targetQuestionNumber := none, clearWrite := none }) := by
  refine ⟨by decide, ?_, ?_, ?_, ?_⟩
  · intro text qid n hj
    simp [processVoiceCommands, hj]
  · intro text qid c hj hs
    simp [processVoiceCommands, hj, hs]
  · intro text qid r hj hs hp
    simp [processVoiceCommands, hj, hs, hp]
  · intro text qid hj hs hp
    simp [processVoiceCommands, hj, hs, hp]

/-- C6 (witness): the clauses instantiated at concrete transcripts — an exact
standalone match (case-insensitive, trimmed), a jump form, and a plain answer
with no command. -/
theorem C6_witness :
    processVoiceCommands "  Skip " "q1" =
      { cleanedText := "", commandExecuted := true, command := some .skip,
        targetQuestionNumber := none, clearWrite := none } ∧
    processVoiceCommands "jump to question 4" "q1" =
      { cleanedText := "", commandExecuted := true, command := some .jump,
        targetQuestionNumber := some 4, clearWrite := none } ∧
    processVoiceCommands "a walk in the park" "q1" =
      { cleanedText := "a walk in the park", commandExecuted := false,
        command := none, targetQuestionNumber := none, clearWrite := none } := by
  refine ⟨?_, ?_, ?_⟩
  · have h := C6_command_matching.2.2.1 "  Skip " "q1" VCommand.skip
      (by decide) (by decide)
    rw [h]
    decide
  · exact C6_command_matching.2.1 "jump to question 4" "q1" 4 (by decide)
  · exact C6_command_matching.2.2.2.2 "a walk in the park" "q1"
      (by decide) (by decide) (by decide)

/-- C8: for a `next` or `skip` intent on a non-empty list, the committed
`navigate` call moves the index to `min(len-1, currentIndex+1)`; before moving,
a `pending` current question becomes `answered` when its answer is non-empty
after trimming, and an empty pending answer becomes `skipped` only for a `skip`
intent — a plain `next` leaves the states untouched. -/
theorem C8_next_skip (questions : List Question) (states : AllQuestionStates)
    (currentIndex : Nat) (direction : NavDirection) (q : Question)
    (st : QuestionInteractionState)
    (hq : questions[currentIndex]? = some q)
    (hst : recLookup states q.id = some st)
    (hdir : direction = .next ∨ direction = .skip) :
    (navigateApplied questions states currentIndex true direction none).2 =
      min (questions.length - 1) (currentIndex + 1) ∧
    (st.status = .pending → jsTrim st.answer ≠ "" →
      recLookup (navigateApplied questions states currentIndex true direction none).1
        q.id = some { st with status := .answered }) ∧
    (st.status = .pending → jsTrim st.answer = "" → direction = .skip →
      recLookup (navigateApplied questions states currentIndex true direction none).1
        q.id = some { st with status := .skipped }) ∧
    (st.status = .pending → jsTrim st.answer = "" → direction = .next →
      (navigateApplied questions states currentIndex true direction none).1 = states) := by
  have hlt : currentIndex < questions.length := lt_length_of_getElem?_eq_some hq
  have hguard : ¬(questions.length = 0 ∨ (true : Bool) = false) := by
    rintro (h0 | hb)
    · omega
    · simp at hb
  refine ⟨?_, ?_, ?_, ?_⟩
  · unfold navigateApplied navigateDecision
    rw [if_neg hguard]
    rcases hdir with rfl | rfl <;> rfl
  · intro hp ha
    unfold navigateApplied navigateDecision
    rw [if_neg hguard]
    simp only [hq, hst, applyNav]
    rw [if_pos hp, if_pos ha]
    exact recLookup_recAssign_self states q.id _
  · intro hp ha hskip
    subst hskip
    unfold navigateApplied navigateDecision
    rw [if_neg hguard]
    simp only [hq, hst, applyNav]
    rw [if_pos hp, if_neg (by simp [ha])]
    simp only [if_true]
    exact recLookup_recAssign_self states q.id _
  · intro hp ha hnext
    subst hnext
    unfold navigateApplied navigateDecision
    rw [if_neg hguard]
    simp only [hq, hst, applyNav]
    rw [if_pos hp, if_neg (by simp [ha])]
    simp

/-- C8 (witness): on the concrete session at the blank pending question 1, a
plain `next` moves to index 1 and leaves the states untouched. -/
theorem C8_witness :
    (navigateApplied exampleQuestions exampleStates 0 true .next none).2 = 1 ∧
    (navigateApplied exampleQuestions exampleStates 0 true .next none).1 =
      exampleStates := by
  have h := C8_next_skip exampleQuestions exampleStates 0 .next
    { id := "q1", text := "Question one", context := [] }
    { answer := "", status := .pending }
    (by decide) (by decide) (Or.inl rfl)
  refine ⟨?_, ?_⟩
  · rw [h.1]
    decide
  · exact h.2.2.2 rfl rfl rfl

/-- C9: export followed by re-import is a round-trip on per-question answer
and status.  For a well-formed session — pairwise-distinct question ids, a
state entry for every question (the Session invariant), context metadata not
shadowing the four exported field names — re-importing the exported object as a
session continuation reproduces, for each question id, exactly the state entry
(answer string and status) it had before the export. -/
theorem C9_roundtrip (s : SavedSession) (fresh : Nat → String)
    (hnd : (s.questions.map (fun q => q.id)).Nodup)
    (hctx : ∀ q ∈ s.questions, ∀ kv ∈ q.context,
      kv.1 ≠ "id" ∧ kv.1 ≠ "question" ∧ kv.1 ≠ "answer" ∧ kv.1 ≠ "status")
    (hstates : ∀ q ∈ s.questions, (recLookup s.questionStates q.id).isSome) :
    ∀ q ∈ s.questions,
      recLookup (importExportedSession (exportSessionData s) fresh).states q.id =
        recLookup s.questionStates q.id := by
  intro q hq
  obtain ⟨st, hst⟩ := Option.isSome_iff_exists.mp (hstates q hq)
  have hexp : ∀ p ∈ s.questions, exportQuestion s.questionStates p =
      { id := p.id, question := p.text,
        answer := match recLookup s.questionStates p.id with
          | some st => jsOr st.answer ""
          | none => "",
        status := match recLookup s.questionStates p.id with
          | some st => jsOr (statusString st.status) "pending"
          | none => "pending",
        extra := p.context } := by
    intro p hp
    unfold exportQuestion
    exact foldl_ctxOverride_clean p.context _ (hctx p hp)
  have hids : (s.questions.map (exportQuestion s.questionStates)).map
      (fun e => e.id) = s.questions.map (fun p => p.id) := by
    rw [List.map_map]
    apply List.map_congr_left
    intro p hp
    simp [Function.comp, hexp p hp]
  have hndexp : ((s.questions.map (exportQuestion s.questionStates)).map
      (fun e => e.id)).Nodup := by
    rw [hids]
    exact hnd
  have hfold : (s.questions.map (exportQuestion s.questionStates)).foldl
      (fun m e => recAssign m e.id (importState e)) [] =
      (s.questions.map (exportQuestion s.questionStates)).map
        (fun e => (e.id, importState e)) := by
    have h := foldl_recAssign_append (fun e : ExportedQuestion => e.id)
      importState
      (s.questions.map (exportQuestion s.questionStates)) [] hndexp (by simp)
    simpa using h
  have hlook := recLookup_map_self (fun e : ExportedQuestion => e.id)
    importState
    (s.questions.map (exportQuestion s.questionStates)) hndexp
    (exportQuestion s.questionStates q)
    (List.mem_map_of_mem (exportQuestion s.questionStates) hq)
  have hne : s.questions ≠ [] := by
    intro hcontra
    rw [hcontra] at hq
    exact List.not_mem_nil q hq
  have hpos : 0 < ((exportSessionData s).questions.foldl
      (fun m e => recAssign m e.id (importState e)) []).length := by
    show 0 < ((s.questions.map (exportQuestion s.questionStates)).foldl
      (fun m e => recAssign m e.id (importState e)) []).length
    rw [hfold]
    simp only [List.length_map]
    rcases hsq : s.questions with _ | ⟨a, rest⟩
    · exact absurd hsq hne
    · simp
  have hbranch : (importExportedSession (exportSessionData s) fresh).states =
      (s.questions.map (exportQuestion s.questionStates)).foldl
        (fun m e => recAssign m e.id (importState e)) [] := by
    unfold importExportedSession
    rw [if_pos hpos]
    rfl
  rw [hbranch, hfold]
  have hkey : (exportQuestion s.questionStates q).id = q.id := by
    rw [hexp q hq]
  simp only [] at hlook
  rw [hkey] at hlook
  rw [hlook, hst]
  have hq' := hexp q hq
  unfold importState
  rw [hq']
  simp only [hst]
  rw [jsOr_empty, jsOr_empty, parseStatus_statusString]

/-- C9 (witness): the round-trip at the concrete three-question session, read
back at the answered question `q2`. -/
theorem C9_witness :
    recLookup (importExportedSession (exportSessionData exampleSession)
      (fun _ => "generated")).states "q2" =
      recLookup exampleSession.questionStates "q2" :=
  C9_roundtrip exampleSession (fun _ => "generated") (by decide) (by decide)
    (by decide) { id := "q2", text := "Question two", context := [] } (by decide)

/-- C10: importing an exported-session file as a continuation positions the
session on the first question in list order that is unanswered (no state
entry, status `pending`, or an empty or whitespace-only answer) — index 0 when
every question is answered — and leaves Q&A inactive. -/
theorem C10_import_positioning (d : ExportData) (fresh : Nat → String)
    (hne : d.questions ≠ []) :
    (importExportedSession d fresh).qnaActive = false ∧
    ((∃ q ∈ (importExportedSession d fresh).questions,
        isUnansweredIn (importExportedSession d fresh).states q.id = true) →
      ∃ a, (importExportedSession d fresh).questions[
          (importExportedSession d fresh).currentIndex]? = some a ∧
        isUnansweredIn (importExportedSession d fresh).states a.id = true ∧
        ∀ j, j < (importExportedSession d fresh).currentIndex →
          ∀ b, (importExportedSession d fresh).questions[j]? = some b →
            isUnansweredIn (importExportedSession d fresh).states b.id = false) ∧
    ((∀ q ∈ (importExportedSession d fresh).questions,
        isUnansweredIn (importExportedSession d fresh).states q.id = false) →
      (importExportedSession d fresh).currentIndex = 0) := by
  have hpos : 0 < (d.questions.foldl
      (fun m e => recAssign m e.id (importState e)) []).length := by
    rcases hd : d.questions with _ | ⟨a, rest⟩
    · exact absurd hd hne
    · calc 0 < ([(a.id, importState a)]).length := by simp
        _ ≤ _ := by
            simp only [List.foldl_cons]
            exact foldl_recAssign_length_ge (fun e : ExportedQuestion => e.id)
              importState rest _
  have hbranch : importExportedSession d fresh =
      { questions := d.questions.enum.map (fun p =>
          { text := p.2.question,
            id := if p.2.id = "" then fresh p.1 else p.2.id,
            context := [] }),
        states := d.questions.foldl
          (fun m q => recAssign m q.id (importState q)) [],
        currentIndex := match firstIdx (fun (q : Question) => isUnansweredIn
            (d.questions.foldl (fun m q => recAssign m q.id (importState q)) []) q.id)
            (d.questions.enum.map (fun p =>
              { text := p.2.question,
                id := if p.2.id = "" then fresh p.1 else p.2.id,
                context := [] })) with
          | some i => i
          | none => 0,
        qnaActive := false, sessionContinuation := true } := by
    unfold importExportedSession
    rw [if_pos hpos]
  rw [hbranch]
  refine ⟨rfl, ?_, ?_⟩
  · intro hex
    obtain ⟨qq, hqq, hu⟩ := hex
    rcases hfi : firstIdx (fun (q : Question) => isUnansweredIn
        (d.questions.foldl (fun m q => recAssign m q.id (importState q)) []) q.id)
        (d.questions.enum.map (fun p =>
          { text := p.2.question,
            id := if p.2.id = "" then fresh p.1 else p.2.id,
            context := [] })) with _ | i
    · exfalso
      have hall := (firstIdx_eq_none_iff _ _).mp hfi
      have := hall qq hqq
      rw [hu] at this
      exact Bool.noConfusion this
    · obtain ⟨⟨a, hga, hpa⟩, hmin⟩ := firstIdx_eq_some_spec _ _ _ hfi
      refine ⟨a, ?_, hpa, ?_⟩
      · simpa [hfi] using hga
      · intro j hj b hb
        have hj' : j < i := by simpa [hfi] using hj
        exact hmin j hj' b hb
  · intro hall
    have hfi : firstIdx (fun (q : Question) => isUnansweredIn
        (d.questions.foldl (fun m q => recAssign m q.id (importState q)) []) q.id)
        (d.questions.enum.map (fun p =>
          { text := p.2.question,
            id := if p.2.id = "" then fresh p.1 else p.2.id,
            context := [] })) = none :=
      (firstIdx_eq_none_iff _ _).mpr hall
    simp [hfi]

/-- C10 (witness): importing an exported session in which every question is
already answered leaves Q&A inactive and positions the session at index 0. -/
theorem C10_witness :
    (importExportedSession exampleAllAnswered (fun _ => "generated")).qnaActive = false ∧
    (importExportedSession exampleAllAnswered (fun _ => "generated")).currentIndex = 0 :=
  ⟨(C10_import_positioning exampleAllAnswered (fun _ => "generated") (by decide)).1,
   (C10_import_positioning exampleAllAnswered (fun _ => "generated") (by decide)).2.2
     (by decide)⟩

end Daytrace
